import Mathlib

/-!
The tasking core of the skift kernel.

A shallow embedding of `kernel/tasking/Task.cpp` and of the C-level interrupt
dispatcher `interrupts_handler` in `arch/x86_32/Interrupts.cpp`.

* Pointers are natural numbers, `0` is `nullptr`.  Objects live in total
  memories (`Kernel.heap` for `Task`, `Kernel.blockers` for `Blocker`).
* 32-bit registers and addresses are natural numbers; the stack pointer
  arithmetic wraps at `2 ^ 32`.
* Every call that leaves the two source files is appended to `Kernel.calls`,
  in program order, so "is called exactly once" is a statement on that list.
* Code the two files link against but that is not part of them (scheduler,
  system-call table, blocker methods, allocators) is a field of `Env`.
-/

namespace Skift

/-! ## Data model -/

/-- The states of a task (`TaskState`). -/
inductive TaskState
  | TASK_STATE_NONE
  | TASK_STATE_RUNNING
  | TASK_STATE_READY
  | TASK_STATE_BLOCKED
  | TASK_STATE_WAITING
  | TASK_STATE_CANCELED
  deriving DecidableEq, Repr

/-- The result slot of a blocker (`BlockerResult`). -/
inductive BlockerResult
  | BLOCKER_UNBLOCKED
  | BLOCKER_TIMEOUT
  | BLOCKER_CANCELED
  | BLOCKER_INVALID
  deriving DecidableEq, Repr

/-- The result codes used by `Task.cpp` (`Result`). -/
inductive Result
  | SUCCESS
  | TIMEOUT
  | ERR_NO_SUCH_TASK
  deriving DecidableEq, Repr

/-- The two flags `task_create` passes to the memory manager (`MemoryFlags`). -/
inductive MemoryFlags
  | MEMORY_CLEAR
  | MEMORY_USER
  deriving DecidableEq, Repr

/-- The frame the entry trampoline materialises (`InterruptStackFrame`), with
the fields the two source files read and write; all are 32-bit words. -/
structure InterruptStackFrame where
  gs : Nat
  fs : Nat
  es : Nat
  ds : Nat
  edi : Nat
  esi : Nat
  ebp : Nat
  esp : Nat
  ebx : Nat
  edx : Nat
  ecx : Nat
  eax : Nat
  intno : Nat
  err : Nat
  eip : Nat
  cs : Nat
  eflags : Nat
  deriving DecidableEq, Repr

/-- The user variant of the frame (`UserInterruptStackFrame`): the same fields
followed by the user stack pointer and stack segment. -/
structure UserInterruptStackFrame where
  gs : Nat
  fs : Nat
  es : Nat
  ds : Nat
  edi : Nat
  esi : Nat
  ebp : Nat
  esp : Nat
  ebx : Nat
  edx : Nat
  ecx : Nat
  eax : Nat
  intno : Nat
  err : Nat
  eip : Nat
  cs : Nat
  eflags : Nat
  user_esp : Nat
  ss : Nat
  deriving DecidableEq, Repr

/-- The value of `InterruptStackFrame stackframe = {}`. -/
def InterruptStackFrame.zero : InterruptStackFrame :=
  ⟨0, 0, 0, 0, 0, 0, 0, 0, 0, 0, 0, 0, 0, 0, 0, 0, 0⟩

/-- The value of `UserInterruptStackFrame stackframe = {}`. -/
def UserInterruptStackFrame.zero : UserInterruptStackFrame :=
  ⟨0, 0, 0, 0, 0, 0, 0, 0, 0, 0, 0, 0, 0, 0, 0, 0, 0, 0, 0⟩

/-- Modelled from the spec: `sizeof(InterruptStackFrame)`; the layout header is
not among the sources, the frame is seventeen packed 32-bit words. -/
def SIZEOF_InterruptStackFrame : Nat := 68

/-- Modelled from the spec: `sizeof(UserInterruptStackFrame)`, the frame plus
the user stack pointer and stack segment. -/
def SIZEOF_UserInterruptStackFrame : Nat := 76

/-- Modelled from the spec: `PROCESS_STACK_SIZE`, both stacks are 4 KiB. -/
def PROCESS_STACK_SIZE : Nat := 4096

/-- Modelled from the spec: the size of a page, 4 KiB. -/
def PAGE_SIZE : Nat := 4096

/-- What a `memcpy` of a stack push stores at the new stack pointer. -/
inductive StackValue
  | word (value : Nat)
  | words (values : List Nat)
  | bytes (text : String)
  | frame (stackframe : InterruptStackFrame)
  | user_frame (stackframe : UserInterruptStackFrame)
  deriving DecidableEq, Repr

/-- The fields of `Task` that `Task.cpp` reads and writes.  The two
`*_stack_data` lists are the contents written by the push helpers, newest
first, each with the address it was copied to. -/
structure Task where
  id : Int
  name : String
  state : TaskState
  page_directory : Nat
  memory_mapping : List Nat
  kernel_stack : Nat
  kernel_stack_pointer : Nat
  kernel_stack_data : List (Nat × StackValue)
  user_stack : Nat
  user_stack_pointer : Nat
  user_stack_data : List (Nat × StackValue)
  entry_point : Nat
  user : Bool
  blocker : Nat
  exit_value : Int
  deriving DecidableEq, Repr

/-- The object `__create(Task)` returns: zero-filled memory. -/
def Task.zero : Task :=
  { id := 0, name := "", state := TaskState.TASK_STATE_NONE, page_directory := 0,
    memory_mapping := [], kernel_stack := 0, kernel_stack_pointer := 0,
    kernel_stack_data := [], user_stack := 0, user_stack_pointer := 0,
    user_stack_data := [], entry_point := 0, user := false, blocker := 0,
    exit_value := 0 }

/-- The concrete blockers `Task.cpp` constructs, and any other one. -/
inductive BlockerKind
  | time (deadline : Nat)
  | wait (task : Nat) (exit_value : Nat)
  | other (tag : Nat)
  deriving DecidableEq, Repr

/-- The data members of a `Blocker` that `task_block` touches. -/
structure Blocker where
  kind : BlockerKind
  _timeout : Nat
  _result : BlockerResult
  deriving DecidableEq, Repr

/-- The calls that leave `Task.cpp` and `Interrupts.cpp`. -/
inductive Call
  | sti
  | cli
  | atomic_disable
  | atomic_enable
  | atomic_begin
  | atomic_end
  | logger_error (task intno err eip : Nat)
  | printf_task (task : Nat)
  | memory_pdir_dump (page_directory : Nat)
  | backtrace (ebp : Nat)
  | system_panic_with_context (stackframe : InterruptStackFrame)
  | system_tick
  | schedule (esp : Nat)
  | dispatcher_dispatch (irq : Nat)
  | task_do_syscall (syscall arg0 arg1 arg2 arg3 arg4 : Nat)
  | pic_ack (intno : Nat)
  | scheduler_yield
  | scheduler_did_change_task_state (task : Nat) (old_state new_state : TaskState)
  | can_unblock (blocker task : Nat)
  | on_unblock (blocker task : Nat)
  | new_blocker (blocker : Nat)
  | delete_blocker (blocker : Nat)
  | list_create
  | list_destroy (task : Nat)
  | create_task (task : Nat)
  | free_task (task : Nat)
  | lock_init (task : Nat)
  | path_clone (parent : Nat)
  | path_create
  | path_destroy (task : Nat)
  | arch_save_context (task : Nat)
  | task_switch_pdir (task page_directory : Nat)
  | task_memory_mapping_destroy (task mapping : Nat)
  | task_fshandle_close_all (task : Nat)
  | memory_pdir_create
  | memory_pdir_destroy (page_directory : Nat)
  | memory_alloc (page_directory size : Nat) (flags : MemoryFlags)
  | memory_map (page_directory base size : Nat) (flags : MemoryFlags)
  | memory_free (page_directory base size : Nat)
  deriving DecidableEq, Repr

/-- The state of the kernel as seen from the two source files.

* `_task_ids`, `_tasks`: the two statics of `Task.cpp` (`none` is `nullptr`);
* `heap`, `blockers`: the memory holding `Task` and `Blocker` objects;
* `allocated`: the `Task` objects handed out by `__create` and not yet freed;
* `kpdir`: what `memory_kpdir()` returns; `mapped`: the present entries, as
  pairs of a page directory and a virtual page number;
* `tick`: the system tick; `running`: what `scheduler_running()` returns;
* `calls`: the calls made so far. -/
structure Kernel where
  _task_ids : Int
  _tasks : Option (List Nat)
  heap : Nat → Task
  blockers : Nat → Blocker
  allocated : List Nat
  kpdir : Nat
  mapped : List (Nat × Nat)
  tick : Nat
  running : Nat
  calls : List Call

/-- The code the two source files link against and that is not among the
sources.  Each function receives the kernel state at the call
(`Kernel.view`). -/
structure Env where
  /-- The width of `Timeout` in bits; `(Timeout)-1` is `2 ^ timeout_bits - 1`. -/
  timeout_bits : Nat
  PROCESS_NAME_SIZE : Nat
  PROCESS_ARG_COUNT : Nat
  /-- The scheduler pass: the new state and the stack pointer to resume. -/
  schedule : Kernel → Nat → Kernel × Nat
  /-- The state in which the yielding task is resumed. -/
  scheduler_yield : Kernel → Kernel
  dispatcher_dispatch : Kernel → Nat → Kernel
  task_do_syscall : Kernel → Nat → Nat → Nat → Nat → Nat → Nat → Kernel × Nat
  /-- The virtual method `blocker->can_unblock(task)`. -/
  can_unblock : Kernel → Nat → Nat → Bool
  /-- The virtual method `blocker->on_unblock(task)`. -/
  on_unblock : Kernel → Nat → Nat → Kernel
  /-- The address the allocator returns for a new `Task`. -/
  alloc_task : Kernel → Nat
  /-- The address the allocator returns for a new `Blocker`. -/
  alloc_blocker : Kernel → Nat
  /-- The address of the directory `memory_pdir_create()` returns. -/
  pdir_create : Kernel → Nat
  /-- The base `memory_alloc` finds for a run of pages, `none` when it fails. -/
  alloc_base : Kernel → Nat → Nat → MemoryFlags → Option Nat

/-- Record a call that has no effect on the modelled state. -/
def Kernel.log (k : Kernel) (c : Call) : Kernel :=
  { k with calls := k.calls ++ [c] }

/-- The state as code outside the two files sees it: the record of calls is
bookkeeping of the model and is not part of it. -/
def Kernel.view (k : Kernel) : Kernel :=
  { k with calls := [] }

/-- Record a call and apply its effect; the record itself is not in the
reach of the callee. -/
def Kernel.call (k : Kernel) (c : Call) (effect : Kernel → Kernel) : Kernel :=
  { effect k.view with calls := k.calls ++ [c] }

/-- Write through a `Task *`. -/
def Kernel.setTask (k : Kernel) (task : Nat) (f : Task → Task) : Kernel :=
  { k with heap := Function.update k.heap task (f (k.heap task)) }

/-- Write through a `Blocker *`. -/
def Kernel.setBlocker (k : Kernel) (blocker : Nat) (f : Blocker → Blocker) : Kernel :=
  { k with blockers := Function.update k.blockers blocker (f (k.blockers blocker)) }

/-- The calls made between the state `k` and the later state `k'`. -/
def callsSince (k k' : Kernel) : List Call :=
  k'.calls.drop k.calls.length

/-- Subtraction on `uintptr_t`. -/
def sub32 (a b : Nat) : Nat :=
  (a + (2 ^ 32 - b % 2 ^ 32)) % 2 ^ 32

/-! ## External collaborators with a specified behaviour -/

/-- Modelled from the spec: `system_tick()` of `kernel/system/System.h`, which
increments the 64-bit tick counter. -/
def system_tick (k : Kernel) : Kernel :=
  { k with tick := (k.tick + 1) % 2 ^ 64, calls := k.calls ++ [Call.system_tick] }

/-- Modelled from the spec: `system_get_tick()`, a read of the tick counter. -/
def system_get_tick (k : Kernel) : Nat :=
  k.tick

/-- The getter `scheduler_running()`. -/
def scheduler_running (k : Kernel) : Nat :=
  k.running

/-! ## Task.cpp: state changes, cancellation, exit -/

/-- The function `task_set_state`: notify the scheduler, then store the state. -/
def task_set_state (k : Kernel) (task : Nat) (state : TaskState) : Kernel :=
  let k1 := k.log (Call.scheduler_did_change_task_state task (k.heap task).state state)
  k1.setTask task (fun t => { t with state := state })

/-- The function `task_cancel`: `none` when `assert(task)` fails; otherwise store the exit
value and mark the task canceled, inside an `AtomicHolder` scope. -/
def task_cancel (k : Kernel) (task : Nat) (exit_value : Int) : Option (Kernel × Result) :=
  if task = 0 then none
  else
    let k1 := k.log Call.atomic_begin
    let k2 := k1.setTask task (fun t => { t with exit_value := exit_value })
    let k3 := task_set_state k2 task TaskState.TASK_STATE_CANCELED
    some (k3.log Call.atomic_end, Result.SUCCESS)

/-- The function `task_exit`: cancel the running task and yield.  Control never comes back
(`ASSERT_NOT_REACHED`), so only the state left behind is returned; `none`
when the assertion of `task_cancel` fails. -/
def task_exit (env : Env) (k : Kernel) (exit_value : Int) : Option Kernel :=
  match task_cancel k (scheduler_running k) exit_value with
  | none => none
  | some (k1, _) => some (k1.call Call.scheduler_yield env.scheduler_yield)

/-- The function `task_dump`: prints the task; nothing for a null task. -/
def task_dump (k : Kernel) (task : Nat) : Kernel :=
  if task = 0 then k
  else
    let k1 := k.log Call.atomic_begin
    let k2 := k1.log (Call.printf_task task)
    let k3 := k2.log (Call.memory_pdir_dump (k.heap task).page_directory)
    k3.log Call.atomic_end

/-! ## Interrupts.cpp: the dispatcher -/

/-- The walk of `backtrace` over the saved frame pointers.  The chain lives in
memory that is not modelled; the walk is recorded as one call. -/
def backtrace (k : Kernel) (ebp : Nat) : Kernel :=
  k.log (Call.backtrace ebp)

/-- How `interrupts_handler` ends. -/
inductive Control
  /-- The handler reached `return esp;`. -/
  | returned (esp : Nat)
  /-- The call `task_exit(-1)` was entered: the running task is canceled and gone. -/
  | task_exited
  /-- The call `system_panic_with_context` was entered. -/
  | panicked
  /-- An assertion failed. -/
  | assert_failed
  deriving DecidableEq, Repr

/-- The outcome of `interrupts_handler`: the state, the frame on the stack
(passed by value, so the trampoline pops what the handler left in it), and
how control leaves. -/
structure Handled where
  kernel : Kernel
  stackframe : InterruptStackFrame
  control : Control

/-- The dispatcher `interrupts_handler(esp, stackframe)`. -/
def interrupts_handler (env : Env) (k : Kernel) (esp : Nat)
    (stackframe : InterruptStackFrame) : Handled :=
  if stackframe.intno < 32 then
    if stackframe.eip ≥ 0x40000000 then
      let k1 := k.log Call.sti
      let k2 := k1.log (Call.logger_error (scheduler_running k1) stackframe.intno
        stackframe.err stackframe.eip)
      let k3 := task_dump k2 (scheduler_running k2)
      let k4 := backtrace k3 stackframe.ebp
      match task_exit env k4 (-1) with
      | none => ⟨k4, stackframe, Control.assert_failed⟩
      | some k5 => ⟨k5, stackframe, Control.task_exited⟩
    else
      ⟨k.log (Call.system_panic_with_context stackframe), stackframe, Control.panicked⟩
  else if stackframe.intno < 48 then
    let k1 := k.log Call.atomic_disable
    let irq := stackframe.intno - 32
    if irq = 0 then
      let k2 := system_tick k1
      let r := env.schedule k2.view esp
      let k3 := k2.call (Call.schedule esp) (fun _ => r.1)
      let k4 := k3.log Call.atomic_enable
      ⟨k4.log (Call.pic_ack stackframe.intno), stackframe, Control.returned r.2⟩
    else
      let k2 := k1.call (Call.dispatcher_dispatch irq) (fun s => env.dispatcher_dispatch s irq)
      let k3 := k2.log Call.atomic_enable
      ⟨k3.log (Call.pic_ack stackframe.intno), stackframe, Control.returned esp⟩
  else if stackframe.intno = 127 then
    let k1 := k.log Call.atomic_disable
    let r := env.schedule k1.view esp
    let k2 := k1.call (Call.schedule esp) (fun _ => r.1)
    let k3 := k2.log Call.atomic_enable
    ⟨k3.log (Call.pic_ack stackframe.intno), stackframe, Control.returned r.2⟩
  else if stackframe.intno = 128 then
    let k1 := k.log Call.sti
    let r := env.task_do_syscall k1.view stackframe.eax stackframe.ebx stackframe.ecx
      stackframe.edx stackframe.esi stackframe.edi
    let k2 := k1.call (Call.task_do_syscall stackframe.eax stackframe.ebx stackframe.ecx
      stackframe.edx stackframe.esi stackframe.edi) (fun _ => r.1)
    let k3 := k2.log Call.cli
    ⟨k3.log (Call.pic_ack stackframe.intno), { stackframe with eax := r.2 }, Control.returned esp⟩
  else
    ⟨k.log (Call.pic_ack stackframe.intno), stackframe, Control.returned esp⟩

/-! ## The memory manager, as far as Task.cpp uses it -/

/-- The virtual page numbers of the range `[base, base + size)`. -/
def pagesOf (base size : Nat) : List Nat :=
  (List.range (size / PAGE_SIZE)).map (fun i => base / PAGE_SIZE + i)

/-- Whether no page of the range is present in the directory. -/
def rangeFree (k : Kernel) (page_directory base size : Nat) : Bool :=
  (pagesOf base size).all (fun p => decide ((page_directory, p) ∉ k.mapped))

/-- Install present entries for every page of the range. -/
def installRange (k : Kernel) (page_directory base size : Nat) : Kernel :=
  { k with mapped := k.mapped ++ (pagesOf base size).map (fun p => (page_directory, p)) }

/-- Modelled from the spec: `memory_map` of `kernel/memory/Memory.h`.  It
installs present entries covering the range, and fails, changing nothing, when
a page of the range is already present or the range crosses the kernel/user
boundary `0xC0000000`.  `Task.cpp` drops the result code. -/
def memory_map (k : Kernel) (page_directory base size : Nat) (flags : MemoryFlags) : Kernel :=
  let k1 := k.log (Call.memory_map page_directory base size flags)
  if rangeFree k1 page_directory base size ∧ ¬ (base < 0xC0000000 ∧ 0xC0000000 < base + size) then
    installRange k1 page_directory base size
  else k1

/-- Modelled from the spec: `memory_alloc` of `kernel/memory/Memory.h`.  It
locates a free run of pages (the search is `Env.alloc_base`) and maps it; the
second component is what it stores through `out_address`, `none` when nothing
is stored. -/
def memory_alloc (env : Env) (k : Kernel) (page_directory size : Nat) (flags : MemoryFlags) :
    Kernel × Option Nat :=
  let k1 := k.log (Call.memory_alloc page_directory size flags)
  match env.alloc_base k1.view page_directory size flags with
  | none => (k1, none)
  | some base =>
    if rangeFree k1 page_directory base size then
      (installRange k1 page_directory base size, some base)
    else (k1, none)

/-- Modelled from the spec: `memory_free` of `kernel/memory/Memory.h`, which
clears the entries of the range. -/
def memory_free (k : Kernel) (page_directory base size : Nat) : Kernel :=
  let k1 := k.log (Call.memory_free page_directory base size)
  let kept := k1.mapped.filter
    (fun e => decide (¬ (e.1 = page_directory ∧ e.2 ∈ pagesOf base size)))
  { k1 with mapped := kept }

/-- Modelled from the spec: `memory_pdir_create` of `kernel/memory/Memory.h`;
the address of the new directory is `Env.pdir_create`. -/
def memory_pdir_create (env : Env) (k : Kernel) : Kernel × Nat :=
  (k.log Call.memory_pdir_create, env.pdir_create k.view)

/-- Modelled from the spec: `memory_pdir_destroy` of `kernel/memory/Memory.h`,
which releases the user half of the directory (pages below `0xC0000000`). -/
def memory_pdir_destroy (k : Kernel) (page_directory : Nat) : Kernel :=
  let k1 := k.log (Call.memory_pdir_destroy page_directory)
  let kept := k1.mapped.filter
    (fun e => decide (¬ (e.1 = page_directory ∧ e.2 < 0xC0000000 / PAGE_SIZE)))
  { k1 with mapped := kept }

/-- The getter `memory_kpdir()`. -/
def memory_kpdir (k : Kernel) : Nat :=
  k.kpdir

/-! ## Task.cpp: creation and destruction -/

/-- The function `task_create(parent, name, user)`; returns the new state and
the new `Task *`.  `ASSERT_ATOMIC` is an obligation of the caller. -/
def task_create (env : Env) (k : Kernel) (parent : Nat) (name : String) (user : Bool) :
    Kernel × Nat :=
  let k0 := if k._tasks = none then { k.log Call.list_create with _tasks := some [] } else k
  let task := env.alloc_task k0.view
  let k1 := { k0.log (Call.create_task task) with
    allocated := task :: k0.allocated
    heap := Function.update k0.heap task Task.zero }
  let k2 := { k1.setTask task (fun t => { t with id := k1._task_ids }) with
    _task_ids := k1._task_ids + 1 }
  let k3 := k2.setTask task (fun t => { t with name := name.take (env.PROCESS_NAME_SIZE - 1) })
  let k4 := k3.setTask task (fun t => { t with state := TaskState.TASK_STATE_NONE })
  let d := if user then memory_pdir_create env k4 else (k4, memory_kpdir k4)
  let k5 := d.1.setTask task (fun t => { t with page_directory := d.2 })
  let k6 := (k5.log Call.list_create).setTask task (fun t => { t with memory_mapping := [] })
  let k7 := k6.log (Call.lock_init task)
  let k8 := if parent ≠ 0 then k7.log (Call.path_clone parent) else k7.log Call.path_create
  let k9 := k8.log (Call.lock_init task)
  let a := memory_alloc env k9 (k9.heap task).page_directory PROCESS_STACK_SIZE
    MemoryFlags.MEMORY_CLEAR
  let k10 := match a.2 with
    | some base => a.1.setTask task (fun t => { t with kernel_stack := base })
    | none => a.1
  let k11 := k10.setTask task (fun t =>
    { t with kernel_stack_pointer := (t.kernel_stack + PROCESS_STACK_SIZE) % 2 ^ 32 })
  let k12 := memory_map k11 (k11.heap task).page_directory 0xff000000 PROCESS_STACK_SIZE
    MemoryFlags.MEMORY_USER
  let k13 := k12.setTask task (fun t =>
    { t with user_stack_pointer := 0xff000000 + PROCESS_STACK_SIZE })
  let k14 := k13.setTask task (fun t => { t with user_stack := 0xff000000 })
  let k15 := k14.log (Call.arch_save_context task)
  ({ k15 with _tasks := k15._tasks.map (fun (l : List Nat) => l ++ [task]) }, task)

/-- The loop of `task_destroy` over the memory mappings: each round hands the
first mapping to `task_memory_mapping_destroy`, which unlinks it. -/
def destroy_mappings (k : Kernel) (task : Nat) : List Nat → Kernel
  | [] => k
  | mapping :: rest =>
    destroy_mappings
      ((k.log (Call.task_memory_mapping_destroy task mapping)).setTask task
        (fun t => { t with memory_mapping := rest })) task rest

/-- The function `task_destroy(task)`.  `list_remove` unlinks the first item
holding the pointer. -/
def task_destroy (k : Kernel) (task : Nat) : Kernel :=
  let k1 := k.log Call.atomic_begin
  let k2 := if (k1.heap task).state ≠ TaskState.TASK_STATE_NONE
    then task_set_state k1 task TaskState.TASK_STATE_NONE else k1
  let k3 := { k2 with _tasks := k2._tasks.map (fun (l : List Nat) => l.erase task) }
  let k4 := k3.log Call.atomic_end
  let k5 := destroy_mappings k4 task (k4.heap task).memory_mapping
  let k6 := k5.log (Call.list_destroy task)
  let k7 := k6.log (Call.task_fshandle_close_all task)
  let k8 := k7.log (Call.path_destroy task)
  let k9 := memory_free k8 (k8.heap task).page_directory (k8.heap task).kernel_stack
    PROCESS_STACK_SIZE
  let k10 := memory_free k9 (k9.heap task).page_directory (k9.heap task).user_stack
    PROCESS_STACK_SIZE
  let k11 := if (k10.heap task).page_directory ≠ memory_kpdir k10
    then memory_pdir_destroy k10 (k10.heap task).page_directory else k10
  { k11.log (Call.free_task task) with allocated := k11.allocated.erase task }

/-- The function `task_by_id(id)`: the first task of the list with that id,
`0` (`nullptr`) when there is none.  The source walks `_tasks` without a null
check; the walk of a null list is given no items here. -/
def task_by_id (k : Kernel) (id : Int) : Nat :=
  match (k._tasks.getD []).find? (fun p => decide ((k.heap p).id = id)) with
  | some p => p
  | none => 0

/-- The function `task_count()`, inside an `AtomicHolder` scope. -/
def task_count (k : Kernel) : Kernel × Nat :=
  let k1 := k.log Call.atomic_begin
  match k1._tasks with
  | none => (k1.log Call.atomic_end, 0)
  | some l => (k1.log Call.atomic_end, l.length)

/-! ## Task.cpp: entry point, stacks, spawn, go -/

/-- The function `task_set_entry(task, entry, user)`. -/
def task_set_entry (k : Kernel) (task entry : Nat) (user : Bool) : Kernel :=
  let k1 := k.setTask task (fun t => { t with entry_point := entry })
  k1.setTask task (fun t => { t with user := user })

/-- The function `task_kernel_stack_push(task, value, size)`: lower the kernel
stack pointer by `size`, copy the value there, return the pointer. -/
def task_kernel_stack_push (k : Kernel) (task : Nat) (value : StackValue) (size : Nat) :
    Kernel × Nat :=
  let k1 := k.setTask task (fun t =>
    { t with kernel_stack_pointer := sub32 t.kernel_stack_pointer size })
  let k2 := k1.setTask task (fun t =>
    { t with kernel_stack_data := (t.kernel_stack_pointer, value) :: t.kernel_stack_data })
  (k2, (k2.heap task).kernel_stack_pointer)

/-- The function `task_user_stack_push(task, value, size)`. -/
def task_user_stack_push (k : Kernel) (task : Nat) (value : StackValue) (size : Nat) :
    Kernel × Nat :=
  let k1 := k.setTask task (fun t =>
    { t with user_stack_pointer := sub32 t.user_stack_pointer size })
  let k2 := k1.setTask task (fun t =>
    { t with user_stack_data := (t.user_stack_pointer, value) :: t.user_stack_data })
  (k2, (k2.heap task).user_stack_pointer)

/-- The function `task_spawn(parent, name, entry, arg, user)`. -/
def task_spawn (env : Env) (k : Kernel) (parent : Nat) (name : String) (entry arg : Nat)
    (user : Bool) : Kernel × Nat :=
  let c := task_create env k parent name user
  let k1 := task_set_entry c.1 c.2 entry user
  let k2 := (task_kernel_stack_push k1 c.2 (StackValue.word arg) 4).1
  (k2, c.2)

/-- Modelled from the spec: `task_switch_pdir(task, pdir)` of
`kernel/tasking/Task-Memory.h`, the transient switch of address space: it
makes `pdir` the directory of `task` and returns the previous one. -/
def task_switch_pdir (k : Kernel) (task page_directory : Nat) : Kernel × Nat :=
  let old := (k.heap task).page_directory
  let k1 := k.log (Call.task_switch_pdir task page_directory)
  (k1.setTask task (fun t => { t with page_directory := page_directory }), old)

/-- The loop `for (argc = 0; argv[argc] && argc < PROCESS_ARG_COUNT; argc++)`
of the two `pass_argc_argv` functions: push each string with its terminator
and collect the addresses.  `argv` holds the strings before the null entry. -/
def push_argv (push : Kernel → Nat → StackValue → Nat → Kernel × Nat) (task : Nat) :
    Kernel → List String → Kernel × List Nat
  | k, [] => (k, [])
  | k, arg :: rest =>
    let r := push k task (StackValue.bytes arg) (arg.utf8ByteSize + 1)
    let q := push_argv push task r.1 rest
    (q.1, r.2 :: q.2)

/-- The array `argv_list[PROCESS_ARG_COUNT]`: the addresses, then zeros. -/
def argv_list (env : Env) (addresses : List Nat) : List Nat :=
  addresses ++ List.replicate (env.PROCESS_ARG_COUNT - addresses.length) 0

/-- The function `pass_argc_argv_user(task, argv)`. -/
def pass_argc_argv_user (env : Env) (k : Kernel) (task : Nat) (argv : List String) : Kernel :=
  let s := task_switch_pdir k (scheduler_running k) (k.heap task).page_directory
  let r := push_argv task_user_stack_push task s.1 (argv.take env.PROCESS_ARG_COUNT)
  let l := task_user_stack_push r.1 task (StackValue.words (argv_list env r.2))
    (4 * env.PROCESS_ARG_COUNT)
  let k1 := (task_user_stack_push l.1 task (StackValue.word l.2) 4).1
  let k2 := (task_user_stack_push k1 task (StackValue.word r.2.length) 4).1
  (task_switch_pdir k2 (scheduler_running k2) s.2).1

/-- The function `pass_argc_argv_kernel(task, argv)`. -/
def pass_argc_argv_kernel (env : Env) (k : Kernel) (task : Nat) (argv : List String) : Kernel :=
  let r := push_argv task_kernel_stack_push task k (argv.take env.PROCESS_ARG_COUNT)
  let l := task_kernel_stack_push r.1 task (StackValue.words (argv_list env r.2))
    (4 * env.PROCESS_ARG_COUNT)
  let k1 := (task_kernel_stack_push l.1 task (StackValue.word l.2) 4).1
  (task_kernel_stack_push k1 task (StackValue.word r.2.length) 4).1

/-- The function `task_spawn_with_argv(parent, name, entry, argv, user)`,
inside an `AtomicHolder` scope. -/
def task_spawn_with_argv (env : Env) (k : Kernel) (parent : Nat) (name : String) (entry : Nat)
    (argv : List String) (user : Bool) : Kernel × Nat :=
  let k0 := k.log Call.atomic_begin
  let c := task_create env k0 parent name user
  let k1 := task_set_entry c.1 c.2 entry true
  let k2 := if user then pass_argc_argv_user env k1 c.2 argv
    else pass_argc_argv_kernel env k1 c.2 argv
  (k2.log Call.atomic_end, c.2)

/-- The frame `task_go` builds for a user task. -/
def user_stackframe (t : Task) : UserInterruptStackFrame :=
  { UserInterruptStackFrame.zero with
    user_esp := t.user_stack_pointer
    eflags := 0x202
    eip := t.entry_point
    ebp := 0
    cs := 0x1b
    ds := 0x23
    es := 0x23
    fs := 0x23
    gs := 0x23
    ss := 0x23 }

/-- The frame `task_go` builds for a kernel task. -/
def kernel_stackframe (t : Task) : InterruptStackFrame :=
  { InterruptStackFrame.zero with
    eflags := 0x202
    eip := t.entry_point
    ebp := 0
    cs := 0x08
    ds := 0x10
    es := 0x10
    fs := 0x10
    gs := 0x10 }

/-- The function `task_go(task)`: push the synthetic frame chosen by
`task->user`, then mark the task running. -/
def task_go (k : Kernel) (task : Nat) : Kernel :=
  let k1 :=
    if (k.heap task).user then
      (task_kernel_stack_push k task (StackValue.user_frame (user_stackframe (k.heap task)))
        SIZEOF_UserInterruptStackFrame).1
    else
      (task_kernel_stack_push k task (StackValue.frame (kernel_stackframe (k.heap task)))
        SIZEOF_InterruptStackFrame).1
  let k2 := k1.log Call.atomic_begin
  let k3 := task_set_state k2 task TaskState.TASK_STATE_RUNNING
  k3.log Call.atomic_end

/-- The value the last push left on the kernel stack of a task. -/
def pushed_frame (k : Kernel) (task : Nat) : Option StackValue :=
  (k.heap task).kernel_stack_data.head?.map (fun e => e.2)

/-! ## Task.cpp: blocking -/

/-- The value of `(Timeout)-1`. -/
def NO_DEADLINE (env : Env) : Nat :=
  2 ^ env.timeout_bits - 1

/-- The function `task_block(task, blocker, timeout)`; `none` when
`assert(!task->blocker)` fails. -/
def task_block (env : Env) (k : Kernel) (task blocker timeout : Nat) :
    Option (Kernel × BlockerResult) :=
  if (k.heap task).blocker ≠ 0 then none
  else
    let k1 := k.log Call.atomic_begin
    let k2 := k1.setTask task (fun t => { t with blocker := blocker })
    let k3 := k2.log (Call.can_unblock blocker task)
    if env.can_unblock k3.view blocker task then
      let k4 := k3.call (Call.on_unblock blocker task) (fun s => env.on_unblock s blocker task)
      let k5 := k4.log Call.atomic_end
      let k6 := k5.setTask task (fun t => { t with blocker := 0 })
      let k7 := k6.log (Call.delete_blocker blocker)
      some (k7, BlockerResult.BLOCKER_UNBLOCKED)
    else
      let k4 :=
        if timeout = NO_DEADLINE env then
          k3.setBlocker blocker (fun b => { b with _timeout := NO_DEADLINE env })
        else
          k3.setBlocker blocker (fun b =>
            { b with _timeout := (system_get_tick k3 + timeout) % 2 ^ env.timeout_bits })
      let k5 := task_set_state k4 task TaskState.TASK_STATE_BLOCKED
      let k6 := k5.log Call.atomic_end
      let k7 := k6.call Call.scheduler_yield env.scheduler_yield
      let result := (k7.blockers blocker)._result
      let k8 := k7.setTask task (fun t => { t with blocker := 0 })
      let k9 := k8.log (Call.delete_blocker blocker)
      some (k9, result)

/-- The expression `new BlockerTime(deadline)` or `new BlockerWait(task, out)`:
the object is placed where the allocator says; the constructor stores the
arguments and leaves the deadline and result members as they are. -/
def new_blocker (env : Env) (k : Kernel) (kind : BlockerKind) : Kernel × Nat :=
  let blocker := env.alloc_blocker k.view
  ((k.log (Call.new_blocker blocker)).setBlocker blocker (fun b => { b with kind := kind }),
    blocker)

/-- The function `task_sleep(task, timeout)`. -/
def task_sleep (env : Env) (k : Kernel) (task timeout : Nat) : Option (Kernel × Result) :=
  let n := new_blocker env k
    (BlockerKind.time ((system_get_tick k + timeout) % 2 ^ env.timeout_bits))
  match task_block env n.1 task n.2 (NO_DEADLINE env) with
  | none => none
  | some r => some (r.1, Result.TIMEOUT)

/-- The function `task_wait(task_id, exit_value)`, inside an `AtomicHolder`
scope. -/
def task_wait (env : Env) (k : Kernel) (task_id : Int) (exit_value : Nat) :
    Option (Kernel × Result) :=
  let k1 := k.log Call.atomic_begin
  let task := task_by_id k1 task_id
  if task = 0 then some (k1.log Call.atomic_end, Result.ERR_NO_SUCH_TASK)
  else
    let n := new_blocker env k1 (BlockerKind.wait task exit_value)
    match task_block env n.1 (scheduler_running n.1) n.2 (NO_DEADLINE env) with
    | none => none
    | some r => some (r.1.log Call.atomic_end, Result.SUCCESS)

/-! ## States named in the statements -/

/-- The state the task is in while `can_unblock` is asked: the blocker sits in
the slot of the task. -/
def installed (k : Kernel) (task blocker : Nat) : Kernel :=
  k.setTask task (fun t => { t with blocker := blocker })

/-- The state handed to `scheduler_yield` by the blocking path of `task_block`:
deadline stored, task marked blocked, atomicity released. -/
def blocked_state (env : Env) (k : Kernel) (task blocker timeout : Nat) : Kernel :=
  (task_set_state
    ((((k.log Call.atomic_begin).setTask task (fun t => { t with blocker := blocker })).log
      (Call.can_unblock blocker task)).setBlocker blocker (fun b =>
        { b with _timeout := if timeout = NO_DEADLINE env then NO_DEADLINE env
            else (system_get_tick k + timeout) % 2 ^ env.timeout_bits }))
    task TaskState.TASK_STATE_BLOCKED).log Call.atomic_end

/-- The state in which the early-return path of `task_block` ends. -/
def unblocked_state (env : Env) (k : Kernel) (task blocker : Nat) : Kernel :=
  let k1 := k.log Call.atomic_begin
  let k2 := k1.setTask task (fun t => { t with blocker := blocker })
  let k3 := k2.log (Call.can_unblock blocker task)
  let k4 := k3.call (Call.on_unblock blocker task) (fun s => env.on_unblock s blocker task)
  let k5 := k4.log Call.atomic_end
  let k6 := k5.setTask task (fun t => { t with blocker := 0 })
  k6.log (Call.delete_blocker blocker)

/-! ## Sequences of operations of the task module -/

/-- An operation of the task module, with its arguments. -/
inductive Op
  | create (parent : Nat) (name : String) (user : Bool)
  | spawn (parent : Nat) (name : String) (entry arg : Nat) (user : Bool)
  | spawn_with_argv (parent : Nat) (name : String) (entry : Nat) (argv : List String)
      (user : Bool)
  | set_state (task : Nat) (state : TaskState)
  | go (task : Nat)
  | cancel (task : Nat) (exit_value : Int)
  | destroy (task : Nat)
  deriving DecidableEq, Repr

/-- Whether the operation is handed a live `Task` object. -/
def Op.valid (k : Kernel) : Op → Bool
  | Op.create _ _ _ => true
  | Op.spawn _ _ _ _ _ => true
  | Op.spawn_with_argv _ _ _ _ _ => true
  | Op.set_state task _ => decide (task ∈ k.allocated)
  | Op.go task => decide (task ∈ k.allocated)
  | Op.cancel task _ => decide (task ∈ k.allocated)
  | Op.destroy task => decide (task ∈ k.allocated)

/-- The state after the operation. -/
def Op.run (env : Env) (k : Kernel) : Op → Kernel
  | Op.create parent name user => (task_create env k parent name user).1
  | Op.spawn parent name entry arg user => (task_spawn env k parent name entry arg user).1
  | Op.spawn_with_argv parent name entry argv user =>
    (task_spawn_with_argv env k parent name entry argv user).1
  | Op.set_state task state => task_set_state k task state
  | Op.go task => task_go k task
  | Op.cancel task exit_value =>
    match task_cancel k task exit_value with
    | some r => r.1
    | none => k
  | Op.destroy task => task_destroy k task

/-- Run the operations in order; `none` when one of them is handed a pointer
that is not a live `Task`. -/
def runOps (env : Env) : Kernel → List Op → Option Kernel
  | k, [] => some k
  | k, op :: rest => if op.valid k then runOps env (op.run env k) rest else none

/-- The statics of `Task.cpp` before the first call: no list, no `Task`. -/
def atBoot (k : Kernel) : Bool :=
  k._tasks.isNone && k.allocated.isEmpty

/-- The items of the global task list (none while `_tasks` is null). -/
def taskList (k : Kernel) : List Nat :=
  k._tasks.getD []

/-- The allocator hands out a non-null address that is not in use. -/
def FreshAllocator (env : Env) : Prop :=
  ∀ k : Kernel, env.alloc_task k ∉ k.allocated ∧ env.alloc_task k ≠ 0

/-- The live `Task` objects and the items of the global task list are the
same, without repetition, and none is null. -/
def TasksInv (k : Kernel) : Prop :=
  (∀ p, p ∈ k.allocated ↔ p ∈ taskList k) ∧ (taskList k).Nodup ∧ k.allocated.Nodup ∧
    0 ∉ k.allocated

/-- Between the two states the statics of `Task.cpp`, the live objects and the
kernel directory are the same, and no call of `memory_pdir_destroy` was made. -/
def Quiet (k k2 : Kernel) : Prop :=
  k2._tasks = k._tasks ∧ k2.allocated = k.allocated ∧ k2.kpdir = k.kpdir ∧
    ∃ l, k2.calls = k.calls ++ l ∧ ∀ d, Call.memory_pdir_destroy d ∉ l

/-- Between the two states the kernel directory is the same and no call of
`memory_pdir_destroy` was made on it. -/
def KernelDirectoryKept (k k2 : Kernel) : Prop :=
  k2.kpdir = k.kpdir ∧ ∃ l, k2.calls = k.calls ++ l ∧ Call.memory_pdir_destroy k.kpdir ∉ l

/-- The start of `task_create`, up to `task->state = TASK_STATE_NONE`: the
state in which the page directory is chosen, and the new `Task *`. -/
def create_named (env : Env) (k : Kernel) (name : String) : Kernel × Nat :=
  let k0 := if k._tasks = none then { k.log Call.list_create with _tasks := some [] } else k
  let task := env.alloc_task k0.view
  let k1 := { k0.log (Call.create_task task) with
    allocated := task :: k0.allocated
    heap := Function.update k0.heap task Task.zero }
  let k2 := { k1.setTask task (fun t => { t with id := k1._task_ids }) with
    _task_ids := k1._task_ids + 1 }
  let k3 := k2.setTask task (fun t => { t with name := name.take (env.PROCESS_NAME_SIZE - 1) })
  (k3.setTask task (fun t => { t with state := TaskState.TASK_STATE_NONE }), task)

/-- The first part of `task_create`: everything before the kernel stack is
allocated.  Returns the state and the new `Task *`. -/
def create_prepared (env : Env) (k : Kernel) (parent : Nat) (name : String) (user : Bool) :
    Kernel × Nat :=
  let k0 := if k._tasks = none then { k.log Call.list_create with _tasks := some [] } else k
  let task := env.alloc_task k0.view
  let k1 := { k0.log (Call.create_task task) with
    allocated := task :: k0.allocated
    heap := Function.update k0.heap task Task.zero }
  let k2 := { k1.setTask task (fun t => { t with id := k1._task_ids }) with
    _task_ids := k1._task_ids + 1 }
  let k3 := k2.setTask task (fun t => { t with name := name.take (env.PROCESS_NAME_SIZE - 1) })
  let k4 := k3.setTask task (fun t => { t with state := TaskState.TASK_STATE_NONE })
  let d := if user then memory_pdir_create env k4 else (k4, memory_kpdir k4)
  let k5 := d.1.setTask task (fun t => { t with page_directory := d.2 })
  let k6 := (k5.log Call.list_create).setTask task (fun t => { t with memory_mapping := [] })
  let k7 := k6.log (Call.lock_init task)
  let k8 := if parent ≠ 0 then k7.log (Call.path_clone parent) else k7.log Call.path_create
  (k8.log (Call.lock_init task), task)

/-- The second part of `task_create`: the two stacks, the saved context, the
entry in the global list. -/
def create_finish (env : Env) (k9 : Kernel) (task : Nat) : Kernel × Nat :=
  let a := memory_alloc env k9 (k9.heap task).page_directory PROCESS_STACK_SIZE
    MemoryFlags.MEMORY_CLEAR
  let k10 := match a.2 with
    | some base => a.1.setTask task (fun t => { t with kernel_stack := base })
    | none => a.1
  let k11 := k10.setTask task (fun t =>
    { t with kernel_stack_pointer := (t.kernel_stack + PROCESS_STACK_SIZE) % 2 ^ 32 })
  let k12 := memory_map k11 (k11.heap task).page_directory 0xff000000 PROCESS_STACK_SIZE
    MemoryFlags.MEMORY_USER
  let k13 := k12.setTask task (fun t =>
    { t with user_stack_pointer := 0xff000000 + PROCESS_STACK_SIZE })
  let k14 := k13.setTask task (fun t => { t with user_stack := 0xff000000 })
  let k15 := k14.log (Call.arch_save_context task)
  ({ k15 with _tasks := k15._tasks.map (fun (l : List Nat) => l ++ [task]) }, task)

/-- The calls `task_create` makes, in order, for a new task at `task` with
page directory `pd`. -/
def task_create_calls (k : Kernel) (parent task pd : Nat) (user : Bool) : List Call :=
  (if k._tasks = none then [Call.list_create] else []) ++ [Call.create_task task] ++
    (if user then [Call.memory_pdir_create] else []) ++
    [Call.list_create, Call.lock_init task,
     if parent ≠ 0 then Call.path_clone parent else Call.path_create,
     Call.lock_init task,
     Call.memory_alloc pd PROCESS_STACK_SIZE MemoryFlags.MEMORY_CLEAR,
     Call.memory_map pd 0xff000000 PROCESS_STACK_SIZE MemoryFlags.MEMORY_USER,
     Call.arch_save_context task]

/-- The calls `task_destroy` makes, in order, for the task as it is in `k`. -/
def task_destroy_calls (k : Kernel) (task : Nat) : List Call :=
  [Call.atomic_begin] ++
    (if (k.heap task).state ≠ TaskState.TASK_STATE_NONE then
      [Call.scheduler_did_change_task_state task (k.heap task).state TaskState.TASK_STATE_NONE]
     else []) ++
    [Call.atomic_end] ++
    (k.heap task).memory_mapping.map (fun m => Call.task_memory_mapping_destroy task m) ++
    [Call.list_destroy task, Call.task_fshandle_close_all task, Call.path_destroy task,
     Call.memory_free (k.heap task).page_directory (k.heap task).kernel_stack PROCESS_STACK_SIZE,
     Call.memory_free (k.heap task).page_directory (k.heap task).user_stack PROCESS_STACK_SIZE] ++
    (if (k.heap task).page_directory ≠ k.kpdir then
      [Call.memory_pdir_destroy (k.heap task).page_directory] else []) ++
    [Call.free_task task]

/-! ## A concrete machine, for evaluating the definitions -/

/-- The kernel at boot: no task, nothing mapped, tick zero. -/
def bootKernel : Kernel :=
  { _task_ids := 0
    _tasks := none
    heap := fun _ => Task.zero
    blockers := fun _ => ⟨BlockerKind.other 0, 0, BlockerResult.BLOCKER_INVALID⟩
    allocated := []
    kpdir := 0x1000
    mapped := []
    tick := 0
    running := 0
    calls := [] }

/-- A small environment: a scheduler that resumes 16 bytes further, a yield
that resolves the blocker of the running task as timed out, a system-call
table that adds its arguments, a bump allocator. -/
def sampleEnv : Env :=
  { timeout_bits := 32
    PROCESS_NAME_SIZE := 128
    PROCESS_ARG_COUNT := 4
    schedule := fun k esp => (k, esp + 16)
    scheduler_yield := fun k =>
      k.setBlocker (k.heap k.running).blocker
        (fun b => { b with _result := BlockerResult.BLOCKER_TIMEOUT })
    dispatcher_dispatch := fun k _ => k
    task_do_syscall := fun k n a b c d e => (k, n + a + b + c + d + e)
    can_unblock := fun k blocker _ =>
      match (k.blockers blocker).kind with
      | BlockerKind.time deadline => decide (deadline ≤ k.tick)
      | BlockerKind.wait task _ => decide ((k.heap task).state = TaskState.TASK_STATE_CANCELED)
      | BlockerKind.other tag => decide (tag = 1)
    on_unblock := fun k _ _ => k
    alloc_task := fun k => k.allocated.sum + 0x100
    alloc_blocker := fun _ => 0x2000
    pdir_create := fun k => 0x3000 + k.allocated.sum
    alloc_base := fun k _ _ _ => some (0xC0000000 + PAGE_SIZE * k.mapped.length) }

/-- A frame with the given vector, instruction pointer and registers. -/
def sampleFrame (intno eip : Nat) : InterruptStackFrame :=
  { InterruptStackFrame.zero with
    intno := intno, eip := eip, err := 2, eax := 7, ebx := 1, ecx := 2, edx := 3, esi := 4,
    edi := 5, ebp := 0, cs := 0x1b }

/-- The boot kernel with a running task at address `0x100`. -/
def runningKernel : Kernel :=
  { bootKernel with
    running := 0x100
    allocated := [0x100]
    _tasks := some [0x100]
    _task_ids := 1
    heap := Function.update bootKernel.heap 0x100
      { Task.zero with state := TaskState.TASK_STATE_RUNNING, page_directory := 0x1000 } }

/-- The kernel `runningKernel` with a blocker at `0x2000` whose `can_unblock`
is true in `sampleEnv`. -/
def readyBlockerKernel : Kernel :=
  runningKernel.setBlocker 0x2000 (fun b => { b with kind := BlockerKind.other 1 })

/-- A kernel in the middle of its life: the task at `0x100` is a user task with
an entry point and one memory mapping, blocked on the blocker at `0x2000`. -/
def blockedKernel : Kernel :=
  { bootKernel with
    running := 0x100
    allocated := [0x100]
    _tasks := some [0x100]
    _task_ids := 1
    tick := 41
    mapped := [(0x3000, 0xff000), (0x3000, 0xC0000)]
    heap := Function.update bootKernel.heap 0x100
      { Task.zero with
        state := TaskState.TASK_STATE_BLOCKED, page_directory := 0x3000,
        memory_mapping := [0x7000], kernel_stack := 0xC0000000, user_stack := 0xff000000,
        entry_point := 0x40001000, user := true, blocker := 0x2000 } }

/-- The kernel `blockedKernel` after its task was made ready and a user task
was spawned. -/
def oneTaskKernel : Kernel :=
  Op.run sampleEnv
    (Op.run sampleEnv blockedKernel (Op.set_state 0x100 TaskState.TASK_STATE_READY))
    (Op.spawn 0x100 "child" 0x40002000 0 true)

/-- The kernel `blockedKernel` after a kernel task was created and a user task
was spawned with arguments. -/
def twoTaskKernel : Kernel :=
  Op.run sampleEnv (Op.run sampleEnv blockedKernel (Op.create 0 "worker" false))
    (Op.spawn_with_argv 0x100 "child" 0x40002000 ["child", "-v"] true)

/-! ## Basic facts about the bookkeeping -/

theorem callsSince_of_calls_eq (k k2 : Kernel) (l : List Call)
    (h : k2.calls = k.calls ++ l) : callsSince k k2 = l := by
  simp [callsSince, h]

@[simp] theorem log_calls (k : Kernel) (c : Call) : (k.log c).calls = k.calls ++ [c] := rfl

@[simp] theorem log_heap (k : Kernel) (c : Call) : (k.log c).heap = k.heap := rfl

@[simp] theorem log_blockers (k : Kernel) (c : Call) : (k.log c).blockers = k.blockers := rfl

@[simp] theorem log_tasks (k : Kernel) (c : Call) : (k.log c)._tasks = k._tasks := rfl

@[simp] theorem log_allocated (k : Kernel) (c : Call) : (k.log c).allocated = k.allocated := rfl

@[simp] theorem log_mapped (k : Kernel) (c : Call) : (k.log c).mapped = k.mapped := rfl

@[simp] theorem log_kpdir (k : Kernel) (c : Call) : (k.log c).kpdir = k.kpdir := rfl

@[simp] theorem log_tick (k : Kernel) (c : Call) : (k.log c).tick = k.tick := rfl

@[simp] theorem log_running (k : Kernel) (c : Call) : (k.log c).running = k.running := rfl

@[simp] theorem log_task_ids (k : Kernel) (c : Call) : (k.log c)._task_ids = k._task_ids := rfl

@[simp] theorem log_view (k : Kernel) (c : Call) : (k.log c).view = k.view := rfl

@[simp] theorem call_calls (k : Kernel) (c : Call) (f : Kernel → Kernel) :
    (k.call c f).calls = k.calls ++ [c] := rfl

@[simp] theorem setTask_calls (k : Kernel) (p : Nat) (f : Task → Task) :
    (k.setTask p f).calls = k.calls := rfl

@[simp] theorem setTask_heap_self (k : Kernel) (p : Nat) (f : Task → Task) :
    (k.setTask p f).heap p = f (k.heap p) := by
  simp [Kernel.setTask]

theorem setTask_heap_other (k : Kernel) (p q : Nat) (f : Task → Task) (h : q ≠ p) :
    (k.setTask p f).heap q = k.heap q := by
  simp [Kernel.setTask, Function.update_noteq h]

@[simp] theorem setTask_blockers (k : Kernel) (p : Nat) (f : Task → Task) :
    (k.setTask p f).blockers = k.blockers := rfl

@[simp] theorem setTask_tasks (k : Kernel) (p : Nat) (f : Task → Task) :
    (k.setTask p f)._tasks = k._tasks := rfl

@[simp] theorem setTask_allocated (k : Kernel) (p : Nat) (f : Task → Task) :
    (k.setTask p f).allocated = k.allocated := rfl

@[simp] theorem setTask_mapped (k : Kernel) (p : Nat) (f : Task → Task) :
    (k.setTask p f).mapped = k.mapped := rfl

@[simp] theorem setTask_kpdir (k : Kernel) (p : Nat) (f : Task → Task) :
    (k.setTask p f).kpdir = k.kpdir := rfl

@[simp] theorem setTask_tick (k : Kernel) (p : Nat) (f : Task → Task) :
    (k.setTask p f).tick = k.tick := rfl

@[simp] theorem setTask_running (k : Kernel) (p : Nat) (f : Task → Task) :
    (k.setTask p f).running = k.running := rfl

@[simp] theorem setTask_task_ids (k : Kernel) (p : Nat) (f : Task → Task) :
    (k.setTask p f)._task_ids = k._task_ids := rfl

@[simp] theorem task_dump_running (k : Kernel) (p : Nat) : (task_dump k p).running = k.running := by
  unfold task_dump; split <;> rfl

@[simp] theorem task_dump_heap (k : Kernel) (p : Nat) : (task_dump k p).heap = k.heap := by
  unfold task_dump; split <;> rfl

@[simp] theorem backtrace_running (k : Kernel) (e : Nat) : (backtrace k e).running = k.running :=
  rfl

@[simp] theorem backtrace_heap (k : Kernel) (e : Nat) : (backtrace k e).heap = k.heap := rfl

/-! ## The dispatcher -/

/-- Claim C3.  For a frame with vector number 32 or above: the handler returns
the stack pointer `schedule(esp)` answers when the vector is 32 or 127 and
`esp` itself otherwise; `system_tick` is called once for vector 32 and never
otherwise; `schedule` is called once, on `esp`, for vectors 32 and 127 and
never otherwise; the scheduler sees the tick counter advanced by one for vector
32 and as it was for vector 127.  Hence vector 127 returns what IRQ 0 returns
from the state one tick earlier. -/
theorem interrupts_handler_schedule_routing (env : Env) (k : Kernel) (esp : Nat)
    (stackframe : InterruptStackFrame) (hint : 32 ≤ stackframe.intno) :
    (stackframe.intno = 32 →
      (interrupts_handler env k esp stackframe).control
        = Control.returned (env.schedule { k.view with tick := (k.tick + 1) % 2 ^ 64 } esp).2) ∧
    (stackframe.intno = 127 →
      (interrupts_handler env k esp stackframe).control
        = Control.returned (env.schedule k.view esp).2 ∧
      (interrupts_handler env k esp stackframe).kernel.tick = (env.schedule k.view esp).1.tick) ∧
    (stackframe.intno ≠ 32 → stackframe.intno ≠ 127 →
      (interrupts_handler env k esp stackframe).control = Control.returned esp) ∧
    (callsSince k (interrupts_handler env k esp stackframe).kernel).count Call.system_tick
      = (if stackframe.intno = 32 then 1 else 0) ∧
    (∀ e, (callsSince k (interrupts_handler env k esp stackframe).kernel).count (Call.schedule e)
      = (if (stackframe.intno = 32 ∨ stackframe.intno = 127) ∧ e = esp then 1 else 0)) ∧
    (stackframe.intno = 127 →
      (interrupts_handler env { k with tick := (k.tick + 1) % 2 ^ 64 } esp stackframe).control
        = (interrupts_handler env k esp { stackframe with intno := 32 }).control) := by
  have h32 : ¬ stackframe.intno < 32 := by omega
  by_cases h0 : stackframe.intno = 32
  · have hk : (interrupts_handler env k esp stackframe).kernel.calls
        = k.calls ++ [Call.atomic_disable, Call.system_tick, Call.schedule esp,
            Call.atomic_enable, Call.pic_ack stackframe.intno] := by
      simp [interrupts_handler, h0, system_tick]
    rw [callsSince_of_calls_eq _ _ _ hk]
    refine ⟨?_, ?_, ?_, ?_, ?_, ?_⟩
    · intro _
      simp [interrupts_handler, h0, system_tick, Kernel.view, Kernel.log]
    · intro h; omega
    · intro h; exact absurd h0 h
    · simp [h0, List.count_cons]
    · intro e
      by_cases he : e = esp
      · simp [h0, he, List.count_cons]
      · have he2 : ¬ esp = e := fun h => he h.symm
        simp [h0, he, he2, List.count_cons]
    · intro h; omega
  · by_cases h127 : stackframe.intno = 127
    · have hk : (interrupts_handler env k esp stackframe).kernel.calls
          = k.calls ++ [Call.atomic_disable, Call.schedule esp,
              Call.atomic_enable, Call.pic_ack stackframe.intno] := by
        simp [interrupts_handler, h127]
      rw [callsSince_of_calls_eq _ _ _ hk]
      refine ⟨?_, ?_, ?_, ?_, ?_, ?_⟩
      · intro h; exact absurd h h0
      · intro _
        constructor
        · simp [interrupts_handler, h127]
        · simp [interrupts_handler, h127, Kernel.call]
      · intro _ h; exact absurd h127 h
      · simp [h0, List.count_cons]
      · intro e
        by_cases he : e = esp
        · simp [h127, he, List.count_cons]
        · have he2 : ¬ esp = e := fun h => he h.symm
          simp [h127, he, he2, List.count_cons]
      · intro _
        simp [interrupts_handler, h127, system_tick, Kernel.view, Kernel.log]
    · refine ⟨fun h => absurd h h0, fun h => absurd h h127, ?_, ?_, ?_, fun h => absurd h h127⟩
      · intro _ _
        by_cases h48 : stackframe.intno < 48
        · have hirq : ¬ stackframe.intno - 32 = 0 := by omega
          simp [interrupts_handler, h32, h48, hirq]
        · by_cases h128 : stackframe.intno = 128
          · simp [interrupts_handler, h128]
          · simp [interrupts_handler, h32, h48, h127, h128]
      · by_cases h48 : stackframe.intno < 48
        · have hirq : ¬ stackframe.intno - 32 = 0 := by omega
          have hk : (interrupts_handler env k esp stackframe).kernel.calls
              = k.calls ++ [Call.atomic_disable, Call.dispatcher_dispatch (stackframe.intno - 32),
                  Call.atomic_enable, Call.pic_ack stackframe.intno] := by
            simp [interrupts_handler, h32, h48, hirq]
          rw [callsSince_of_calls_eq _ _ _ hk]
          simp [h0, List.count_cons]
        · by_cases h128 : stackframe.intno = 128
          · have hk : (interrupts_handler env k esp stackframe).kernel.calls
                = k.calls ++ [Call.sti, Call.task_do_syscall stackframe.eax stackframe.ebx
                    stackframe.ecx stackframe.edx stackframe.esi stackframe.edi, Call.cli,
                    Call.pic_ack stackframe.intno] := by
              simp [interrupts_handler, h128]
            rw [callsSince_of_calls_eq _ _ _ hk]
            simp [h0, List.count_cons]
          · have hk : (interrupts_handler env k esp stackframe).kernel.calls
                = k.calls ++ [Call.pic_ack stackframe.intno] := by
              simp [interrupts_handler, h32, h48, h127, h128]
            rw [callsSince_of_calls_eq _ _ _ hk]
            simp [h0, List.count_cons]
      · intro e
        by_cases h48 : stackframe.intno < 48
        · have hirq : ¬ stackframe.intno - 32 = 0 := by omega
          have hk : (interrupts_handler env k esp stackframe).kernel.calls
              = k.calls ++ [Call.atomic_disable, Call.dispatcher_dispatch (stackframe.intno - 32),
                  Call.atomic_enable, Call.pic_ack stackframe.intno] := by
            simp [interrupts_handler, h32, h48, hirq]
          rw [callsSince_of_calls_eq _ _ _ hk]
          simp [h0, h127, List.count_cons]
        · by_cases h128 : stackframe.intno = 128
          · have hk : (interrupts_handler env k esp stackframe).kernel.calls
                = k.calls ++ [Call.sti, Call.task_do_syscall stackframe.eax stackframe.ebx
                    stackframe.ecx stackframe.edx stackframe.esi stackframe.edi, Call.cli,
                    Call.pic_ack stackframe.intno] := by
              simp [interrupts_handler, h128]
            rw [callsSince_of_calls_eq _ _ _ hk]
            simp [h0, h127, List.count_cons]
          · have hk : (interrupts_handler env k esp stackframe).kernel.calls
                = k.calls ++ [Call.pic_ack stackframe.intno] := by
              simp [interrupts_handler, h32, h48, h127, h128]
            rw [callsSince_of_calls_eq _ _ _ hk]
            simp [h0, h127, List.count_cons]

theorem interrupts_handler_schedule_routing_witness :
    32 ≤ (sampleFrame 127 0x40001000).intno ∧
      (interrupts_handler sampleEnv runningKernel 0x5000 (sampleFrame 127 0x40001000)).control
        = Control.returned 0x5010 :=
  ⟨by decide,
    ((interrupts_handler_schedule_routing sampleEnv runningKernel 0x5000
      (sampleFrame 127 0x40001000) (by decide)).2.1 rfl).1.trans (by decide)⟩

/-- Claim C6.  For a frame with vector number 128 the handler calls
`task_do_syscall` once, with the call number from `eax` and the arguments from
`ebx`, `ecx`, `edx`, `esi`, `edi` as they were on entry; it stores the result of
the call in `eax` and leaves every other field of the frame as it was; it
returns the stack pointer it was given. -/
theorem interrupts_handler_syscall (env : Env) (k : Kernel) (esp : Nat)
    (stackframe : InterruptStackFrame) (hint : stackframe.intno = 128) :
    callsSince k (interrupts_handler env k esp stackframe).kernel
      = [Call.sti,
         Call.task_do_syscall stackframe.eax stackframe.ebx stackframe.ecx stackframe.edx
           stackframe.esi stackframe.edi,
         Call.cli, Call.pic_ack 128] ∧
    (∀ n a0 a1 a2 a3 a4,
      (callsSince k (interrupts_handler env k esp stackframe).kernel).count
          (Call.task_do_syscall n a0 a1 a2 a3 a4)
        = (if n = stackframe.eax ∧ a0 = stackframe.ebx ∧ a1 = stackframe.ecx ∧
            a2 = stackframe.edx ∧ a3 = stackframe.esi ∧ a4 = stackframe.edi then 1 else 0)) ∧
    (interrupts_handler env k esp stackframe).stackframe
      = { stackframe with
          eax := (env.task_do_syscall k.view stackframe.eax stackframe.ebx stackframe.ecx
            stackframe.edx stackframe.esi stackframe.edi).2 } ∧
    (interrupts_handler env k esp stackframe).control = Control.returned esp := by
  have hk : (interrupts_handler env k esp stackframe).kernel.calls
      = k.calls ++ [Call.sti, Call.task_do_syscall stackframe.eax stackframe.ebx
          stackframe.ecx stackframe.edx stackframe.esi stackframe.edi, Call.cli,
          Call.pic_ack 128] := by
    simp [interrupts_handler, hint]
  rw [callsSince_of_calls_eq _ _ _ hk]
  refine ⟨rfl, ?_, ?_, ?_⟩
  · intro n a0 a1 a2 a3 a4
    simp only [List.count_cons, List.count_nil]
    by_cases h : n = stackframe.eax ∧ a0 = stackframe.ebx ∧ a1 = stackframe.ecx ∧
        a2 = stackframe.edx ∧ a3 = stackframe.esi ∧ a4 = stackframe.edi
    · obtain ⟨h1, h2, h3, h4, h5, h6⟩ := h
      simp [h1, h2, h3, h4, h5, h6]
    · rw [if_neg h]
      have : ¬ (Call.task_do_syscall stackframe.eax stackframe.ebx stackframe.ecx stackframe.edx
          stackframe.esi stackframe.edi = Call.task_do_syscall n a0 a1 a2 a3 a4) := by
        intro heq
        injection heq with e1 e2 e3 e4 e5 e6
        exact h ⟨e1.symm, e2.symm, e3.symm, e4.symm, e5.symm, e6.symm⟩
      simp [this]
  · simp [interrupts_handler, hint]
  · simp [interrupts_handler, hint]

theorem interrupts_handler_syscall_witness :
    (sampleFrame 128 0x40001000).intno = 128 ∧
      (interrupts_handler sampleEnv runningKernel 0x5000 (sampleFrame 128 0x40001000)).stackframe.eax
        = 22 ∧
      (interrupts_handler sampleEnv runningKernel 0x5000 (sampleFrame 128 0x40001000)).control
        = Control.returned 0x5000 :=
  ⟨by decide,
    (congrArg InterruptStackFrame.eax (interrupts_handler_syscall sampleEnv runningKernel 0x5000
      (sampleFrame 128 0x40001000) (by decide)).2.2.1).trans (by decide),
    by decide⟩

/-! ## The synthetic frame of `task_go` -/

theorem setTask_heap_proj {α : Type} (g : Task → α) (k : Kernel) (p q : Nat) (f : Task → Task)
    (hf : ∀ t, g (f t) = g t) : g ((k.setTask p f).heap q) = g (k.heap q) := by
  by_cases h : q = p
  · subst h
    simp [hf]
  · rw [setTask_heap_other _ _ _ _ h]

/-- The frame left on the kernel stack by `task_go` is the one chosen by the
`user` member of the task, with the entry point of the task as `eip`. -/
theorem task_go_pushed_frame (k : Kernel) (task : Nat) :
    pushed_frame (task_go k task) task
      = some (if (k.heap task).user then StackValue.user_frame (user_stackframe (k.heap task))
          else StackValue.frame (kernel_stackframe (k.heap task))) := by
  by_cases hu : (k.heap task).user = true
  · simp [pushed_frame, task_go, hu, task_set_state, task_kernel_stack_push]
  · simp [pushed_frame, task_go, hu, task_set_state, task_kernel_stack_push]

theorem task_kernel_stack_push_entry (k : Kernel) (task q : Nat) (v : StackValue) (n : Nat) :
    ((task_kernel_stack_push k task v n).1.heap q).user = (k.heap q).user ∧
    ((task_kernel_stack_push k task v n).1.heap q).entry_point = (k.heap q).entry_point := by
  constructor
  · simp only [task_kernel_stack_push]
    refine Eq.trans (setTask_heap_proj Task.user _ _ _ _ ?_)
      (setTask_heap_proj Task.user _ _ _ _ ?_) <;> intro t <;> rfl
  · simp only [task_kernel_stack_push]
    refine Eq.trans (setTask_heap_proj Task.entry_point _ _ _ _ ?_)
      (setTask_heap_proj Task.entry_point _ _ _ _ ?_) <;> intro t <;> rfl

theorem task_user_stack_push_entry (k : Kernel) (task q : Nat) (v : StackValue) (n : Nat) :
    ((task_user_stack_push k task v n).1.heap q).user = (k.heap q).user ∧
    ((task_user_stack_push k task v n).1.heap q).entry_point = (k.heap q).entry_point := by
  constructor
  · simp only [task_user_stack_push]
    refine Eq.trans (setTask_heap_proj Task.user _ _ _ _ ?_)
      (setTask_heap_proj Task.user _ _ _ _ ?_) <;> intro t <;> rfl
  · simp only [task_user_stack_push]
    refine Eq.trans (setTask_heap_proj Task.entry_point _ _ _ _ ?_)
      (setTask_heap_proj Task.entry_point _ _ _ _ ?_) <;> intro t <;> rfl

theorem task_switch_pdir_entry (k : Kernel) (task q d : Nat) :
    ((task_switch_pdir k task d).1.heap q).user = (k.heap q).user ∧
    ((task_switch_pdir k task d).1.heap q).entry_point = (k.heap q).entry_point := by
  constructor
  · simp only [task_switch_pdir]
    refine Eq.trans (setTask_heap_proj Task.user _ _ _ _ ?_) rfl
    intro t; rfl
  · simp only [task_switch_pdir]
    refine Eq.trans (setTask_heap_proj Task.entry_point _ _ _ _ ?_) rfl
    intro t; rfl

theorem push_argv_entry (push : Kernel → Nat → StackValue → Nat → Kernel × Nat)
    (hpush : ∀ k task q v n, ((push k task v n).1.heap q).user = (k.heap q).user ∧
      ((push k task v n).1.heap q).entry_point = (k.heap q).entry_point)
    (task q : Nat) (argv : List String) (k : Kernel) :
    ((push_argv push task k argv).1.heap q).user = (k.heap q).user ∧
    ((push_argv push task k argv).1.heap q).entry_point = (k.heap q).entry_point := by
  induction argv generalizing k with
  | nil => exact ⟨rfl, rfl⟩
  | cons arg rest ih =>
    simp only [push_argv]
    have h1 := ih (push k task (StackValue.bytes arg) (arg.utf8ByteSize + 1)).1
    have h2 := hpush k task q (StackValue.bytes arg) (arg.utf8ByteSize + 1)
    exact ⟨h1.1.trans h2.1, h1.2.trans h2.2⟩

theorem pass_argc_argv_kernel_entry (env : Env) (k : Kernel) (task q : Nat)
    (argv : List String) :
    ((pass_argc_argv_kernel env k task argv).heap q).user = (k.heap q).user ∧
    ((pass_argc_argv_kernel env k task argv).heap q).entry_point = (k.heap q).entry_point := by
  simp only [pass_argc_argv_kernel]
  have h1 := push_argv_entry task_kernel_stack_push task_kernel_stack_push_entry task q
    (argv.take env.PROCESS_ARG_COUNT) k
  refine ⟨?_, ?_⟩
  · rw [(task_kernel_stack_push_entry _ _ _ _ _).1, (task_kernel_stack_push_entry _ _ _ _ _).1,
      (task_kernel_stack_push_entry _ _ _ _ _).1]
    exact h1.1
  · rw [(task_kernel_stack_push_entry _ _ _ _ _).2, (task_kernel_stack_push_entry _ _ _ _ _).2,
      (task_kernel_stack_push_entry _ _ _ _ _).2]
    exact h1.2

theorem pass_argc_argv_user_entry (env : Env) (k : Kernel) (task q : Nat)
    (argv : List String) :
    ((pass_argc_argv_user env k task argv).heap q).user = (k.heap q).user ∧
    ((pass_argc_argv_user env k task argv).heap q).entry_point = (k.heap q).entry_point := by
  simp only [pass_argc_argv_user]
  have h0 := task_switch_pdir_entry k (scheduler_running k) q (k.heap task).page_directory
  have h1 := push_argv_entry task_user_stack_push task_user_stack_push_entry task q
    (argv.take env.PROCESS_ARG_COUNT)
    (task_switch_pdir k (scheduler_running k) (k.heap task).page_directory).1
  refine ⟨?_, ?_⟩
  · rw [(task_switch_pdir_entry _ _ _ _).1, (task_user_stack_push_entry _ _ _ _ _).1,
      (task_user_stack_push_entry _ _ _ _ _).1, (task_user_stack_push_entry _ _ _ _ _).1]
    exact h1.1.trans h0.1
  · rw [(task_switch_pdir_entry _ _ _ _).2, (task_user_stack_push_entry _ _ _ _ _).2,
      (task_user_stack_push_entry _ _ _ _ _).2, (task_user_stack_push_entry _ _ _ _ _).2]
    exact h1.2.trans h0.2

/-- A task made by `task_spawn` carries the user flag and entry point it was
given, so `task_go` pushes the frame of that mode, for both modes. -/
theorem task_go_after_task_spawn (env : Env) (k : Kernel) (parent : Nat) (name : String)
    (entry arg : Nat) (user : Bool) :
    pushed_frame (task_go (task_spawn env k parent name entry arg user).1
        (task_spawn env k parent name entry arg user).2)
        (task_spawn env k parent name entry arg user).2
      = some (if user then
          StackValue.user_frame
            { user_stackframe ((task_spawn env k parent name entry arg user).1.heap
                (task_spawn env k parent name entry arg user).2) with
              eip := entry, eflags := 0x202, cs := 0x1b, ds := 0x23, es := 0x23, fs := 0x23,
              gs := 0x23, ss := 0x23 }
        else
          StackValue.frame
            { InterruptStackFrame.zero with
              eip := entry, eflags := 0x202, cs := 0x08, ds := 0x10, es := 0x10, fs := 0x10,
              gs := 0x10 }) := by
  rw [task_go_pushed_frame]
  have hu : ((task_spawn env k parent name entry arg user).1.heap
      (task_spawn env k parent name entry arg user).2).user = user := by
    simp only [task_spawn]
    rw [(task_kernel_stack_push_entry _ _ _ _ _).1]
    simp [task_set_entry]
  have he : ((task_spawn env k parent name entry arg user).1.heap
      (task_spawn env k parent name entry arg user).2).entry_point = entry := by
    simp only [task_spawn]
    rw [(task_kernel_stack_push_entry _ _ _ _ _).2]
    simp [task_set_entry]
  rw [hu]
  cases user
  · simp [kernel_stackframe, he, InterruptStackFrame.zero]
  · simp [user_stackframe, he]

/-- Claim C1, at the failing input.  A task made by `task_spawn_with_argv`
with `user = false` has its `user` member set to `true`, so `task_go` pushes a
user frame: `cs = 0x1b` and `ds = es = fs = gs = ss = 0x23`, where the claim
asks for `cs = 0x08` and `ds = es = fs = gs = 0x10`. -/
theorem task_go_after_task_spawn_with_argv_kernel (env : Env) (k : Kernel) (parent : Nat)
    (name : String) (entry : Nat) (argv : List String) :
    ∃ f : UserInterruptStackFrame,
      pushed_frame (task_go (task_spawn_with_argv env k parent name entry argv false).1
          (task_spawn_with_argv env k parent name entry argv false).2)
          (task_spawn_with_argv env k parent name entry argv false).2
        = some (StackValue.user_frame f) ∧
      f.eip = entry ∧ f.eflags = 0x202 ∧ f.cs = 0x1b ∧ f.ds = 0x23 ∧ f.es = 0x23 ∧
      f.fs = 0x23 ∧ f.gs = 0x23 ∧ f.ss = 0x23 := by
  have hu : ((task_spawn_with_argv env k parent name entry argv false).1.heap
      (task_spawn_with_argv env k parent name entry argv false).2).user = true := by
    simp only [task_spawn_with_argv, Bool.false_eq_true, if_false, log_heap]
    rw [(pass_argc_argv_kernel_entry _ _ _ _ _).1]
    simp [task_set_entry]
  have he : ((task_spawn_with_argv env k parent name entry argv false).1.heap
      (task_spawn_with_argv env k parent name entry argv false).2).entry_point = entry := by
    simp only [task_spawn_with_argv, Bool.false_eq_true, if_false, log_heap]
    rw [(pass_argc_argv_kernel_entry _ _ _ _ _).2]
    simp [task_set_entry]
  refine ⟨user_stackframe ((task_spawn_with_argv env k parent name entry argv false).1.heap
      (task_spawn_with_argv env k parent name entry argv false).2), ?_, ?_⟩
  · rw [task_go_pushed_frame, hu]
    simp
  · simp [user_stackframe, he]

/-! ## The blocker protocol -/

@[simp] theorem setTask_view (k : Kernel) (p : Nat) (f : Task → Task) :
    (k.setTask p f).view = k.view.setTask p f := rfl

@[simp] theorem view_heap (k : Kernel) : k.view.heap = k.heap := rfl

@[simp] theorem view_tick (k : Kernel) : k.view.tick = k.tick := rfl

@[simp] theorem setBlocker_calls (k : Kernel) (b : Nat) (f : Blocker → Blocker) :
    (k.setBlocker b f).calls = k.calls := rfl

@[simp] theorem setBlocker_heap (k : Kernel) (b : Nat) (f : Blocker → Blocker) :
    (k.setBlocker b f).heap = k.heap := rfl

@[simp] theorem setBlocker_blockers_self (k : Kernel) (b : Nat) (f : Blocker → Blocker) :
    (k.setBlocker b f).blockers b = f (k.blockers b) := by
  simp [Kernel.setBlocker]

@[simp] theorem setBlocker_view (k : Kernel) (b : Nat) (f : Blocker → Blocker) :
    (k.setBlocker b f).view = k.view.setBlocker b f := rfl

theorem task_block_unblocked_path (env : Env) (k : Kernel) (task blocker timeout : Nat)
    (hslot : (k.heap task).blocker = 0)
    (hcan : env.can_unblock (installed k task blocker).view blocker task = true) :
    task_block env k task blocker timeout
      = some (unblocked_state env k task blocker, BlockerResult.BLOCKER_UNBLOCKED) := by
  have hcan2 : env.can_unblock (k.view.setTask task (fun t => { t with blocker := blocker }))
      blocker task = true := hcan
  simp [task_block, hslot, hcan2, unblocked_state]

theorem task_block_blocked_path (env : Env) (k : Kernel) (task blocker timeout : Nat)
    (hslot : (k.heap task).blocker = 0)
    (hcannot : env.can_unblock (installed k task blocker).view blocker task = false) :
    task_block env k task blocker timeout
      = some ((((blocked_state env k task blocker timeout).call Call.scheduler_yield
            env.scheduler_yield).setTask task (fun t => { t with blocker := 0 })).log
            (Call.delete_blocker blocker),
          ((env.scheduler_yield (blocked_state env k task blocker timeout).view).blockers
            blocker)._result) := by
  have hcan2 : env.can_unblock (k.view.setTask task (fun t => { t with blocker := blocker }))
      blocker task = false := hcannot
  by_cases ht : timeout = NO_DEADLINE env
  · simp [task_block, hslot, hcan2, ht, blocked_state, Kernel.call]
  · simp [task_block, hslot, hcan2, ht, blocked_state, Kernel.call, system_get_tick]

theorem task_block_returns (env : Env) (k : Kernel) (task blocker timeout : Nat)
    (hslot : (k.heap task).blocker = 0) :
    ∃ r, task_block env k task blocker timeout = some r := by
  cases hc : env.can_unblock (installed k task blocker).view blocker task
  · exact ⟨_, task_block_blocked_path env k task blocker timeout hslot hc⟩
  · exact ⟨_, task_block_unblocked_path env k task blocker timeout hslot hc⟩

/-- Claim C4.  With an empty blocker slot and `can_unblock` true at the call,
`task_block` returns `BLOCKER_UNBLOCKED`; it calls `on_unblock` once, never
`scheduler_yield`, never `task_set_state`; the state of the task on return is
the one `on_unblock` left (so unchanged when `on_unblock` leaves it alone), and
the blocker slot is empty again. -/
theorem task_block_unblocked (env : Env) (k : Kernel) (task blocker timeout : Nat)
    (hslot : (k.heap task).blocker = 0)
    (hcan : env.can_unblock (installed k task blocker).view blocker task = true) :
    ∃ r, task_block env k task blocker timeout = some r ∧
      r.2 = BlockerResult.BLOCKER_UNBLOCKED ∧
      callsSince k r.1
        = [Call.atomic_begin, Call.can_unblock blocker task, Call.on_unblock blocker task,
           Call.atomic_end, Call.delete_blocker blocker] ∧
      (callsSince k r.1).count (Call.on_unblock blocker task) = 1 ∧
      Call.scheduler_yield ∉ callsSince k r.1 ∧
      (∀ o n, Call.scheduler_did_change_task_state task o n ∉ callsSince k r.1) ∧
      (r.1.heap task).state
        = ((env.on_unblock (installed k task blocker).view blocker task).heap task).state ∧
      (((env.on_unblock (installed k task blocker).view blocker task).heap task).state
          = (k.heap task).state →
        (r.1.heap task).state = (k.heap task).state) ∧
      (r.1.heap task).blocker = 0 := by
  refine ⟨_, task_block_unblocked_path env k task blocker timeout hslot hcan, rfl, ?_⟩
  have hc : callsSince k (unblocked_state env k task blocker)
      = [Call.atomic_begin, Call.can_unblock blocker task, Call.on_unblock blocker task,
           Call.atomic_end, Call.delete_blocker blocker] := by
    apply callsSince_of_calls_eq
    simp [unblocked_state]
  have hs : ((unblocked_state env k task blocker).heap task).state
      = ((env.on_unblock (installed k task blocker).view blocker task).heap task).state := by
    simp [unblocked_state, Kernel.call, installed]
  refine ⟨hc, ?_, ?_, ?_, hs, fun h => hs.trans h, ?_⟩
  · rw [hc]; simp [List.count_cons]
  · rw [hc]; simp
  · intro o n; rw [hc]; simp
  · simp [unblocked_state]

/-- Claim C5.  With an empty blocker slot and `can_unblock` false at the call,
`task_block` stores the deadline (the no-deadline value when `timeout` is
`(Timeout)-1`, the current tick plus `timeout` in `Timeout` arithmetic
otherwise), marks the task blocked, then yields exactly once; it returns the
result found in the blocker after the yield, with the blocker slot empty. -/
theorem task_block_blocked (env : Env) (k : Kernel) (task blocker timeout : Nat)
    (hslot : (k.heap task).blocker = 0)
    (hcannot : env.can_unblock (installed k task blocker).view blocker task = false) :
    ∃ r kb, task_block env k task blocker timeout = some r ∧
      ((kb.blockers blocker)._timeout
        = (if timeout = NO_DEADLINE env then NO_DEADLINE env
            else (system_get_tick k + timeout) % 2 ^ env.timeout_bits)) ∧
      (timeout ≠ NO_DEADLINE env → system_get_tick k + timeout < 2 ^ env.timeout_bits →
        (kb.blockers blocker)._timeout = system_get_tick k + timeout) ∧
      (kb.heap task).state = TaskState.TASK_STATE_BLOCKED ∧
      (kb.heap task).blocker = blocker ∧
      callsSince k kb
        = [Call.atomic_begin, Call.can_unblock blocker task,
           Call.scheduler_did_change_task_state task (k.heap task).state
             TaskState.TASK_STATE_BLOCKED,
           Call.atomic_end] ∧
      r.1 = ((kb.call Call.scheduler_yield env.scheduler_yield).setTask task
          (fun t => { t with blocker := 0 })).log (Call.delete_blocker blocker) ∧
      callsSince k r.1 = callsSince k kb ++ [Call.scheduler_yield, Call.delete_blocker blocker] ∧
      (callsSince k r.1).count Call.scheduler_yield = 1 ∧
      r.2 = ((env.scheduler_yield kb.view).blockers blocker)._result ∧
      (r.1.heap task).blocker = 0 := by
  have hkb : callsSince k (blocked_state env k task blocker timeout)
      = [Call.atomic_begin, Call.can_unblock blocker task,
           Call.scheduler_did_change_task_state task (k.heap task).state
             TaskState.TASK_STATE_BLOCKED,
           Call.atomic_end] := by
    apply callsSince_of_calls_eq
    simp [blocked_state, task_set_state]
  have hr : callsSince k ((((blocked_state env k task blocker timeout).call Call.scheduler_yield
            env.scheduler_yield).setTask task (fun t => { t with blocker := 0 })).log
            (Call.delete_blocker blocker))
      = [Call.atomic_begin, Call.can_unblock blocker task,
           Call.scheduler_did_change_task_state task (k.heap task).state
             TaskState.TASK_STATE_BLOCKED,
           Call.atomic_end, Call.scheduler_yield, Call.delete_blocker blocker] := by
    apply callsSince_of_calls_eq
    simp [blocked_state, task_set_state]
  have ht : ((blocked_state env k task blocker timeout).blockers blocker)._timeout
      = (if timeout = NO_DEADLINE env then NO_DEADLINE env
          else (system_get_tick k + timeout) % 2 ^ env.timeout_bits) := by
    simp [blocked_state, task_set_state]
  refine ⟨_, blocked_state env k task blocker timeout,
    task_block_blocked_path env k task blocker timeout hslot hcannot, ht, ?_, ?_, ?_, hkb, rfl,
    ?_, ?_, rfl, ?_⟩
  · intro hne hlt
    rw [ht, if_neg hne, Nat.mod_eq_of_lt hlt]
  · simp [blocked_state, task_set_state]
  · simp [blocked_state, task_set_state]
  · rw [hr, hkb]; rfl
  · rw [hr]; simp [List.count_cons]
  · simp

theorem task_block_unblocked_witness :
    (readyBlockerKernel.heap 0x100).blocker = 0 ∧
      sampleEnv.can_unblock (installed readyBlockerKernel 0x100 0x2000).view 0x2000 0x100 = true ∧
      (task_block sampleEnv readyBlockerKernel 0x100 0x2000 5).map Prod.snd
        = some BlockerResult.BLOCKER_UNBLOCKED :=
  ⟨by decide, by decide, by
    obtain ⟨r, h, hr, _⟩ :=
      task_block_unblocked sampleEnv readyBlockerKernel 0x100 0x2000 5 (by decide) (by decide)
    rw [h]
    simp [hr]⟩

theorem task_block_blocked_witness :
    (runningKernel.heap 0x100).blocker = 0 ∧
      sampleEnv.can_unblock (installed runningKernel 0x100 0x2000).view 0x2000 0x100 = false ∧
      (task_block sampleEnv runningKernel 0x100 0x2000 5).isSome = true :=
  ⟨by decide, by decide, by
    obtain ⟨r, kb, h, _⟩ :=
      task_block_blocked sampleEnv runningKernel 0x100 0x2000 5 (by decide) (by decide)
    rw [h]
    rfl⟩

/-! ## Waiting for a task -/

theorem task_by_id_eq_zero_iff (k : Kernel) (l : List Nat) (id : Int)
    (hinit : k._tasks = some l) (hnn : 0 ∉ l) :
    task_by_id k id = 0 ↔ ∀ p ∈ l, (k.heap p).id ≠ id := by
  unfold task_by_id
  rw [hinit]
  simp only [Option.getD_some]
  cases h : l.find? (fun p => decide ((k.heap p).id = id)) with
  | none =>
    simp only [true_iff]
    intro p hp
    have := List.find?_eq_none.mp h p hp
    simpa using this
  | some q =>
    have hq : q ∈ l := List.mem_of_find?_eq_some h
    have hid : (k.heap q).id = id := by simpa using List.find?_some h
    constructor
    · intro h0
      simp only at h0
      exact absurd (h0 ▸ hq) hnn
    · intro hall
      exact absurd hid (hall q hq)

theorem task_by_id_found (k : Kernel) (l : List Nat) (id : Int)
    (hinit : k._tasks = some l) (hex : ∃ p ∈ l, (k.heap p).id = id) :
    task_by_id k id ∈ l ∧ (k.heap (task_by_id k id)).id = id := by
  unfold task_by_id
  rw [hinit]
  simp only [Option.getD_some]
  cases h : l.find? (fun p => decide ((k.heap p).id = id)) with
  | none =>
    obtain ⟨p, hp, hid⟩ := hex
    have := List.find?_eq_none.mp h p hp
    simp [hid] at this
  | some q =>
    exact ⟨List.mem_of_find?_eq_some h, by simpa using List.find?_some h⟩

theorem task_by_id_log (k : Kernel) (c : Call) (id : Int) :
    task_by_id (k.log c) id = task_by_id k id := rfl

/-- Claim C10.  For a kernel whose task list is initialised and holds no null
pointer, and whose running task has an empty blocker slot: `task_wait` returns
`ERR_NO_SUCH_TASK` exactly when no task of the list has the id, and then only
opens and closes its atomic scope (no blocker made, no yield, no task
touched); when a task with the id is in the list, it makes a `Wait` blocker
for that task, calls `task_block` on the running task with that blocker and
the no-deadline timeout, and returns `SUCCESS`. -/
theorem task_wait_result (env : Env) (k : Kernel) (task_id : Int) (exit_value : Nat)
    (l : List Nat) (hinit : k._tasks = some l) (hnn : 0 ∉ l)
    (hslot : (k.heap (scheduler_running k)).blocker = 0) :
    ((∀ p ∈ l, (k.heap p).id ≠ task_id) →
      task_wait env k task_id exit_value
        = some ((k.log Call.atomic_begin).log Call.atomic_end, Result.ERR_NO_SUCH_TASK)) ∧
    ((∃ p ∈ l, (k.heap p).id = task_id) →
      task_by_id k task_id ∈ l ∧ (k.heap (task_by_id k task_id)).id = task_id ∧
      ((new_blocker env (k.log Call.atomic_begin)
          (BlockerKind.wait (task_by_id k task_id) exit_value)).1.blockers
        (new_blocker env (k.log Call.atomic_begin)
          (BlockerKind.wait (task_by_id k task_id) exit_value)).2).kind
        = BlockerKind.wait (task_by_id k task_id) exit_value ∧
      ∃ r,
        task_block env
            (new_blocker env (k.log Call.atomic_begin)
              (BlockerKind.wait (task_by_id k task_id) exit_value)).1
            (scheduler_running k)
            (new_blocker env (k.log Call.atomic_begin)
              (BlockerKind.wait (task_by_id k task_id) exit_value)).2
            (NO_DEADLINE env) = some r ∧
        task_wait env k task_id exit_value = some (r.1.log Call.atomic_end, Result.SUCCESS)) ∧
    (∃ r, task_wait env k task_id exit_value = some r ∧
      (r.2 = Result.ERR_NO_SUCH_TASK ↔ ∀ p ∈ l, (k.heap p).id ≠ task_id) ∧
      (r.2 = Result.SUCCESS ↔ ∃ p ∈ l, (k.heap p).id = task_id)) := by
  have hmiss : (∀ p ∈ l, (k.heap p).id ≠ task_id) →
      task_wait env k task_id exit_value
        = some ((k.log Call.atomic_begin).log Call.atomic_end, Result.ERR_NO_SUCH_TASK) := by
    intro hall
    have h0 : task_by_id k task_id = 0 := (task_by_id_eq_zero_iff k l task_id hinit hnn).mpr hall
    simp [task_wait, task_by_id_log, h0]
  have hhit : (∃ p ∈ l, (k.heap p).id = task_id) →
      ∃ r,
        task_block env
            (new_blocker env (k.log Call.atomic_begin)
              (BlockerKind.wait (task_by_id k task_id) exit_value)).1
            (scheduler_running k)
            (new_blocker env (k.log Call.atomic_begin)
              (BlockerKind.wait (task_by_id k task_id) exit_value)).2
            (NO_DEADLINE env) = some r ∧
        task_wait env k task_id exit_value = some (r.1.log Call.atomic_end, Result.SUCCESS) := by
    intro hex
    have hne : task_by_id k task_id ≠ 0 := by
      intro h0
      obtain ⟨p, hp, hid⟩ := hex
      exact (task_by_id_eq_zero_iff k l task_id hinit hnn).mp h0 p hp hid
    obtain ⟨r, hr⟩ := task_block_returns env
      (new_blocker env (k.log Call.atomic_begin)
        (BlockerKind.wait (task_by_id k task_id) exit_value)).1
      (scheduler_running k)
      (new_blocker env (k.log Call.atomic_begin)
        (BlockerKind.wait (task_by_id k task_id) exit_value)).2
      (NO_DEADLINE env) (by simpa [new_blocker] using hslot)
    refine ⟨r, hr, ?_⟩
    have hr2 := hr
    simp only [scheduler_running] at hr2
    simp only [task_wait, task_by_id_log, hne, if_false, scheduler_running]
    have hrun : (new_blocker env (k.log Call.atomic_begin)
        (BlockerKind.wait (task_by_id k task_id) exit_value)).1.running = k.running := rfl
    rw [hrun, hr2]
  refine ⟨hmiss, ?_, ?_⟩
  · intro hex
    obtain ⟨h1, h2⟩ := task_by_id_found k l task_id hinit hex
    exact ⟨h1, h2, by simp [new_blocker], hhit hex⟩
  · by_cases hex : ∃ p ∈ l, (k.heap p).id = task_id
    · obtain ⟨r, _, hw⟩ := hhit hex
      refine ⟨_, hw, ?_, ?_⟩
      · simp only [reduceCtorEq, false_iff]
        intro hall
        obtain ⟨p, hp, hid⟩ := hex
        exact hall p hp hid
      · simp only [true_iff]
        exact hex
    · have hall : ∀ p ∈ l, (k.heap p).id ≠ task_id := by
        intro p hp hid
        exact hex ⟨p, hp, hid⟩
      refine ⟨_, hmiss hall, ?_, ?_⟩
      · simp only [true_iff]
        exact hall
      · simp only [reduceCtorEq, false_iff]
        exact hex

theorem task_wait_result_witness :
    runningKernel._tasks = some [0x100] ∧ 0 ∉ [0x100] ∧
      (runningKernel.heap (scheduler_running runningKernel)).blocker = 0 ∧
      task_wait sampleEnv runningKernel 7 0
        = some ((runningKernel.log Call.atomic_begin).log Call.atomic_end,
            Result.ERR_NO_SUCH_TASK) :=
  ⟨rfl, by decide, by decide,
    (task_wait_result sampleEnv runningKernel 7 0 [0x100] rfl (by decide) (by decide)).1
      (by decide)⟩

/-! ## Creation and destruction: what each step leaves alone -/

@[simp] theorem memory_map_tasks (k : Kernel) (d b n : Nat) (fl : MemoryFlags) :
    (memory_map k d b n fl)._tasks = k._tasks := by
  unfold memory_map
  simp only []
  split <;> rfl

@[simp] theorem memory_alloc_tasks (env : Env) (k : Kernel) (d n : Nat) (fl : MemoryFlags) :
    (memory_alloc env k d n fl).1._tasks = k._tasks := by
  unfold memory_alloc
  simp only []
  split
  · rfl
  · split <;> rfl

@[simp] theorem memory_free_tasks (k : Kernel) (d b n : Nat) :
    (memory_free k d b n)._tasks = k._tasks := rfl

@[simp] theorem memory_pdir_destroy_tasks (k : Kernel) (d : Nat) :
    (memory_pdir_destroy k d)._tasks = k._tasks := rfl

@[simp] theorem memory_pdir_create_tasks (env : Env) (k : Kernel) :
    (memory_pdir_create env k).1._tasks = k._tasks := rfl

@[simp] theorem memory_map_allocated (k : Kernel) (d b n : Nat) (fl : MemoryFlags) :
    (memory_map k d b n fl).allocated = k.allocated := by
  unfold memory_map
  simp only []
  split <;> rfl

@[simp] theorem memory_alloc_allocated (env : Env) (k : Kernel) (d n : Nat) (fl : MemoryFlags) :
    (memory_alloc env k d n fl).1.allocated = k.allocated := by
  unfold memory_alloc
  simp only []
  split
  · rfl
  · split <;> rfl

@[simp] theorem memory_free_allocated (k : Kernel) (d b n : Nat) :
    (memory_free k d b n).allocated = k.allocated := rfl

@[simp] theorem memory_pdir_destroy_allocated (k : Kernel) (d : Nat) :
    (memory_pdir_destroy k d).allocated = k.allocated := rfl

@[simp] theorem memory_pdir_create_allocated (env : Env) (k : Kernel) :
    (memory_pdir_create env k).1.allocated = k.allocated := rfl

@[simp] theorem memory_map_kpdir (k : Kernel) (d b n : Nat) (fl : MemoryFlags) :
    (memory_map k d b n fl).kpdir = k.kpdir := by
  unfold memory_map
  simp only []
  split <;> rfl

@[simp] theorem memory_alloc_kpdir (env : Env) (k : Kernel) (d n : Nat) (fl : MemoryFlags) :
    (memory_alloc env k d n fl).1.kpdir = k.kpdir := by
  unfold memory_alloc
  simp only []
  split
  · rfl
  · split <;> rfl

@[simp] theorem memory_free_kpdir (k : Kernel) (d b n : Nat) :
    (memory_free k d b n).kpdir = k.kpdir := rfl

@[simp] theorem memory_pdir_destroy_kpdir (k : Kernel) (d : Nat) :
    (memory_pdir_destroy k d).kpdir = k.kpdir := rfl

@[simp] theorem memory_pdir_create_kpdir (env : Env) (k : Kernel) :
    (memory_pdir_create env k).1.kpdir = k.kpdir := rfl

@[simp] theorem memory_map_heap (k : Kernel) (d b n : Nat) (fl : MemoryFlags) :
    (memory_map k d b n fl).heap = k.heap := by
  unfold memory_map
  simp only []
  split <;> rfl

@[simp] theorem memory_alloc_heap (env : Env) (k : Kernel) (d n : Nat) (fl : MemoryFlags) :
    (memory_alloc env k d n fl).1.heap = k.heap := by
  unfold memory_alloc
  simp only []
  split
  · rfl
  · split <;> rfl

@[simp] theorem memory_free_heap (k : Kernel) (d b n : Nat) :
    (memory_free k d b n).heap = k.heap := rfl

@[simp] theorem memory_pdir_destroy_heap (k : Kernel) (d : Nat) :
    (memory_pdir_destroy k d).heap = k.heap := rfl

@[simp] theorem memory_pdir_create_heap (env : Env) (k : Kernel) :
    (memory_pdir_create env k).1.heap = k.heap := rfl

@[simp] theorem task_set_state_tasks (k : Kernel) (t : Nat) (st : TaskState) :
    (task_set_state k t st)._tasks = k._tasks := rfl

@[simp] theorem destroy_mappings_tasks (k : Kernel) (t : Nat) (l : List Nat) :
    (destroy_mappings k t l)._tasks = k._tasks := by
  induction l generalizing k with
  | nil => rfl
  | cons m rest ih => simp only [destroy_mappings]; rw [ih]; rfl

@[simp] theorem task_set_state_allocated (k : Kernel) (t : Nat) (st : TaskState) :
    (task_set_state k t st).allocated = k.allocated := rfl

@[simp] theorem destroy_mappings_allocated (k : Kernel) (t : Nat) (l : List Nat) :
    (destroy_mappings k t l).allocated = k.allocated := by
  induction l generalizing k with
  | nil => rfl
  | cons m rest ih => simp only [destroy_mappings]; rw [ih]; rfl

@[simp] theorem task_set_state_kpdir (k : Kernel) (t : Nat) (st : TaskState) :
    (task_set_state k t st).kpdir = k.kpdir := rfl

@[simp] theorem destroy_mappings_kpdir (k : Kernel) (t : Nat) (l : List Nat) :
    (destroy_mappings k t l).kpdir = k.kpdir := by
  induction l generalizing k with
  | nil => rfl
  | cons m rest ih => simp only [destroy_mappings]; rw [ih]; rfl

@[simp] theorem task_set_state_mapped (k : Kernel) (t : Nat) (st : TaskState) :
    (task_set_state k t st).mapped = k.mapped := rfl

@[simp] theorem destroy_mappings_mapped (k : Kernel) (t : Nat) (l : List Nat) :
    (destroy_mappings k t l).mapped = k.mapped := by
  induction l generalizing k with
  | nil => rfl
  | cons m rest ih => simp only [destroy_mappings]; rw [ih]; rfl

@[simp] theorem task_set_state_calls (k : Kernel) (t : Nat) (st : TaskState) :
    (task_set_state k t st).calls
      = k.calls ++ [Call.scheduler_did_change_task_state t (k.heap t).state st] := rfl

@[simp] theorem memory_map_calls (k : Kernel) (d b n : Nat) (fl : MemoryFlags) :
    (memory_map k d b n fl).calls = k.calls ++ [Call.memory_map d b n fl] := by
  unfold memory_map
  simp only []
  split <;> rfl

@[simp] theorem memory_alloc_calls (env : Env) (k : Kernel) (d n : Nat) (fl : MemoryFlags) :
    (memory_alloc env k d n fl).1.calls = k.calls ++ [Call.memory_alloc d n fl] := by
  unfold memory_alloc
  simp only []
  split
  · rfl
  · split <;> rfl

@[simp] theorem memory_free_calls (k : Kernel) (d b n : Nat) :
    (memory_free k d b n).calls = k.calls ++ [Call.memory_free d b n] := rfl

@[simp] theorem memory_pdir_destroy_calls (k : Kernel) (d : Nat) :
    (memory_pdir_destroy k d).calls = k.calls ++ [Call.memory_pdir_destroy d] := rfl

@[simp] theorem memory_pdir_create_calls (env : Env) (k : Kernel) :
    (memory_pdir_create env k).1.calls = k.calls ++ [Call.memory_pdir_create] := rfl

theorem destroy_mappings_calls (k : Kernel) (t : Nat) (l : List Nat) :
    (destroy_mappings k t l).calls
      = k.calls ++ l.map (fun m => Call.task_memory_mapping_destroy t m) := by
  induction l generalizing k with
  | nil => simp [destroy_mappings]
  | cons m rest ih => simp [destroy_mappings, ih]

/-- The members of a task other than the list of mappings survive the loop
over the mappings. -/
theorem destroy_mappings_heap (k : Kernel) (t q : Nat) (l : List Nat) :
    ((destroy_mappings k t l).heap q).state = (k.heap q).state ∧
    ((destroy_mappings k t l).heap q).page_directory = (k.heap q).page_directory ∧
    ((destroy_mappings k t l).heap q).kernel_stack = (k.heap q).kernel_stack ∧
    ((destroy_mappings k t l).heap q).user_stack = (k.heap q).user_stack := by
  induction l generalizing k with
  | nil => exact ⟨rfl, rfl, rfl, rfl⟩
  | cons m rest ih =>
    simp only [destroy_mappings]
    obtain ⟨h1, h2, h3, h4⟩ := ih ((k.log (Call.task_memory_mapping_destroy t m)).setTask t
      (fun t => { t with memory_mapping := rest }))
    refine ⟨h1.trans ?_, h2.trans ?_, h3.trans ?_, h4.trans ?_⟩
    · refine Eq.trans (setTask_heap_proj Task.state _ _ _ _ ?_) rfl
      intro x; rfl
    · refine Eq.trans (setTask_heap_proj Task.page_directory _ _ _ _ ?_) rfl
      intro x; rfl
    · refine Eq.trans (setTask_heap_proj Task.kernel_stack _ _ _ _ ?_) rfl
      intro x; rfl
    · refine Eq.trans (setTask_heap_proj Task.user_stack _ _ _ _ ?_) rfl
      intro x; rfl

theorem task_create_allocated (env : Env) (k : Kernel) (parent : Nat) (name : String)
    (user : Bool) :
    (task_create env k parent name user).1.allocated
      = (task_create env k parent name user).2 :: k.allocated := by
  unfold task_create
  simp only []
  cases user <;> by_cases ht : k._tasks = none <;> by_cases hp : parent = 0 <;>
    simp [ht, hp, memory_kpdir] <;> split <;> simp [Kernel.view]

theorem task_create_task_list (env : Env) (k : Kernel) (parent : Nat) (name : String)
    (user : Bool) :
    taskList (task_create env k parent name user).1
      = taskList k ++ [(task_create env k parent name user).2] := by
  unfold task_create taskList
  simp only []
  cases user <;> cases ht : k._tasks <;> by_cases hp : parent = 0 <;>
    simp [ht, hp, memory_kpdir] <;> split <;> simp [Kernel.view, ht]

theorem task_create_kpdir (env : Env) (k : Kernel) (parent : Nat) (name : String)
    (user : Bool) :
    (task_create env k parent name user).1.kpdir = k.kpdir := by
  unfold task_create
  simp only []
  cases user <;> by_cases ht : k._tasks = none <;> by_cases hp : parent = 0 <;>
    simp [ht, hp, memory_kpdir] <;> split <;> simp [Kernel.view]

theorem task_create_state (env : Env) (k : Kernel) (parent : Nat) (name : String)
    (user : Bool) :
    ((task_create env k parent name user).1.heap (task_create env k parent name user).2).state
      = TaskState.TASK_STATE_NONE := by
  unfold task_create
  simp only []
  cases user <;> by_cases ht : k._tasks = none <;> by_cases hp : parent = 0 <;>
    simp [ht, hp, memory_kpdir] <;> split <;> simp [Kernel.view]

theorem task_create_kernel_pd (env : Env) (k : Kernel) (parent : Nat) (name : String) :
    ((task_create env k parent name false).1.heap
      (task_create env k parent name false).2).page_directory = k.kpdir := by
  unfold task_create
  simp only []
  by_cases ht : k._tasks = none <;> by_cases hp : parent = 0 <;>
    simp [ht, hp, memory_kpdir] <;> split <;> simp [Kernel.view]

theorem task_create_calls_eq (env : Env) (k : Kernel) (parent : Nat) (name : String)
    (user : Bool) :
    (task_create env k parent name user).1.calls
      = k.calls ++ task_create_calls k parent (task_create env k parent name user).2
          ((task_create env k parent name user).1.heap
            (task_create env k parent name user).2).page_directory user := by
  unfold task_create task_create_calls
  simp only []
  cases user <;> by_cases ht : k._tasks = none <;> by_cases hp : parent = 0 <;>
    simp [ht, hp, memory_kpdir] <;> split <;> simp [Kernel.view]

@[simp] theorem memory_pdir_create_mapped (env : Env) (k : Kernel) :
    (memory_pdir_create env k).1.mapped = k.mapped := rfl

theorem task_create_eq (env : Env) (k : Kernel) (parent : Nat) (name : String) (user : Bool) :
    task_create env k parent name user
      = create_finish env (create_prepared env k parent name user).1
          (create_prepared env k parent name user).2 := rfl

theorem create_prepared_mapped (env : Env) (k : Kernel) (parent : Nat) (name : String)
    (user : Bool) : (create_prepared env k parent name user).1.mapped = k.mapped := by
  unfold create_prepared
  simp only []
  cases user <;> by_cases ht : k._tasks = none <;> by_cases hp : parent = 0 <;>
    simp [ht, hp, memory_kpdir]

theorem pagesOf_user_stack : pagesOf 0xff000000 PROCESS_STACK_SIZE = [0xff000] := by
  decide

theorem memory_map_user_stack_present (k : Kernel) (d : Nat) (fl : MemoryFlags) :
    (d, 0xff000) ∈ (memory_map k d 0xff000000 PROCESS_STACK_SIZE fl).mapped := by
  unfold memory_map
  simp only []
  split
  · simp [installRange, pagesOf_user_stack]
  · rename_i h
    have hfree : rangeFree (k.log (Call.memory_map d 0xff000000 PROCESS_STACK_SIZE fl)) d
        0xff000000 PROCESS_STACK_SIZE = false := by
      by_contra hc
      apply h
      refine ⟨by simpa using hc, ?_⟩
      simp [PROCESS_STACK_SIZE]
    simpa [rangeFree, pagesOf_user_stack] using hfree

theorem memory_map_mapped_sub (k : Kernel) (d b n : Nat) (fl : MemoryFlags) (e : Nat × Nat) :
    (e ∈ k.mapped → e ∈ (memory_map k d b n fl).mapped) ∧
    (e ∈ (memory_map k d b n fl).mapped → e ∈ k.mapped ∨ (e.1 = d ∧ e.2 ∈ pagesOf b n)) := by
  unfold memory_map
  simp only []
  split
  · constructor
    · intro h; simp [installRange, h]
    · intro h
      simp only [installRange, log_mapped, List.mem_append, List.mem_map] at h
      rcases h with h | ⟨p, hp, rfl⟩
      · exact Or.inl h
      · exact Or.inr ⟨rfl, hp⟩
  · exact ⟨fun h => h, fun h => Or.inl h⟩

theorem memory_alloc_mapped_sub (env : Env) (k : Kernel) (d n : Nat) (fl : MemoryFlags)
    (e : Nat × Nat) :
    (e ∈ k.mapped → e ∈ (memory_alloc env k d n fl).1.mapped) ∧
    (e ∈ (memory_alloc env k d n fl).1.mapped →
      e ∈ k.mapped ∨
        ∃ base, (memory_alloc env k d n fl).2 = some base ∧ e.1 = d ∧ e.2 ∈ pagesOf base n) := by
  unfold memory_alloc
  simp only []
  split
  · exact ⟨fun h => h, fun h => Or.inl h⟩
  · split
    · constructor
      · intro h; simp [installRange, h]
      · intro h
        simp only [installRange, log_mapped, List.mem_append, List.mem_map] at h
        rcases h with h | ⟨p, hp, rfl⟩
        · exact Or.inl h
        · exact Or.inr ⟨_, rfl, rfl, hp⟩
    · exact ⟨fun h => h, fun h => Or.inl h⟩

theorem create_finish_page_directory (env : Env) (k9 : Kernel) (task : Nat) :
    ((create_finish env k9 task).1.heap task).page_directory = (k9.heap task).page_directory := by
  unfold create_finish
  simp only []
  cases h : (memory_alloc env k9 (k9.heap task).page_directory PROCESS_STACK_SIZE
    MemoryFlags.MEMORY_CLEAR).2 <;> simp

theorem create_finish_kernel_stack (env : Env) (k9 : Kernel) (task base : Nat)
    (h : (memory_alloc env k9 (k9.heap task).page_directory PROCESS_STACK_SIZE
      MemoryFlags.MEMORY_CLEAR).2 = some base) :
    ((create_finish env k9 task).1.heap task).kernel_stack = base := by
  unfold create_finish
  simp [h]

theorem create_finish_mapped (env : Env) (k9 : Kernel) (task : Nat) (e : Nat × Nat) :
    (e ∈ k9.mapped → e ∈ (create_finish env k9 task).1.mapped) ∧
    (e ∈ (create_finish env k9 task).1.mapped →
      e ∈ k9.mapped ∨
        (e.1 = (k9.heap task).page_directory ∧
          (e.2 ∈ pagesOf ((create_finish env k9 task).1.heap task).kernel_stack
              PROCESS_STACK_SIZE ∨ e.2 = 0xff000))) ∧
    ((k9.heap task).page_directory, 0xff000) ∈ (create_finish env k9 task).1.mapped := by
  have hks := create_finish_kernel_stack env k9 task
  unfold create_finish at hks ⊢
  simp only [] at hks ⊢
  cases ha : (memory_alloc env k9 (k9.heap task).page_directory PROCESS_STACK_SIZE
    MemoryFlags.MEMORY_CLEAR).2 with
  | none =>
    simp only [ha, log_mapped, setTask_mapped, setTask_heap_self]
    refine ⟨?_, ?_, ?_⟩
    · intro h
      exact (memory_map_mapped_sub _ _ _ _ _ e).1 (by
        simpa using (memory_alloc_mapped_sub env k9 _ _ _ e).1 h)
    · intro h
      rcases (memory_map_mapped_sub _ _ _ _ _ e).2 h with h1 | ⟨h1, h2⟩
      · have h1b : e ∈ (memory_alloc env k9 (k9.heap task).page_directory PROCESS_STACK_SIZE
            MemoryFlags.MEMORY_CLEAR).1.mapped := by simpa using h1
        rcases (memory_alloc_mapped_sub env k9 _ _ _ e).2 h1b with h3 | ⟨base, hb, _⟩
        · exact Or.inl h3
        · rw [ha] at hb; exact absurd hb (by simp)
      · right
        refine ⟨by simpa using h1, Or.inr ?_⟩
        rw [pagesOf_user_stack] at h2
        simpa using h2
    · have := memory_map_user_stack_present
        ((memory_alloc env k9 (k9.heap task).page_directory PROCESS_STACK_SIZE
          MemoryFlags.MEMORY_CLEAR).1.setTask task (fun t =>
            { t with kernel_stack_pointer := (t.kernel_stack + PROCESS_STACK_SIZE) % 2 ^ 32 }))
        (k9.heap task).page_directory MemoryFlags.MEMORY_USER
      simpa using this
  | some base =>
    have hks2 := hks base ha
    simp only [ha] at hks2
    simp only [ha, log_mapped, setTask_mapped, setTask_heap_self]
    refine ⟨?_, ?_, ?_⟩
    · intro h
      exact (memory_map_mapped_sub _ _ _ _ _ e).1 (by
        simpa using (memory_alloc_mapped_sub env k9 _ _ _ e).1 h)
    · intro h
      rcases (memory_map_mapped_sub _ _ _ _ _ e).2 h with h1 | ⟨h1, h2⟩
      · have h1b : e ∈ (memory_alloc env k9 (k9.heap task).page_directory PROCESS_STACK_SIZE
            MemoryFlags.MEMORY_CLEAR).1.mapped := by simpa using h1
        rcases (memory_alloc_mapped_sub env k9 _ _ _ e).2 h1b with h3 | ⟨b2, hb, hd, hpg⟩
        · exact Or.inl h3
        · rw [ha] at hb
          have hbb : base = b2 := by simpa using hb
          right
          refine ⟨hd, Or.inl ?_⟩
          simp only [setTask_heap_self, memory_map_heap] at hks2 ⊢
          simpa [hbb] using hpg
      · right
        refine ⟨by simpa using h1, Or.inr ?_⟩
        rw [pagesOf_user_stack] at h2
        simpa using h2
    · have := memory_map_user_stack_present
        (((memory_alloc env k9 (k9.heap task).page_directory PROCESS_STACK_SIZE
          MemoryFlags.MEMORY_CLEAR).1.setTask task (fun t =>
            { t with kernel_stack := base })).setTask task (fun t =>
            { t with kernel_stack_pointer := (t.kernel_stack + PROCESS_STACK_SIZE) % 2 ^ 32 }))
        (k9.heap task).page_directory MemoryFlags.MEMORY_USER
      simpa using this

/-! ## Destruction -/

@[simp] theorem destroy_mappings_page_directory (k : Kernel) (t q : Nat) (l : List Nat) :
    ((destroy_mappings k t l).heap q).page_directory = (k.heap q).page_directory :=
  (destroy_mappings_heap k t q l).2.1

@[simp] theorem destroy_mappings_kernel_stack (k : Kernel) (t q : Nat) (l : List Nat) :
    ((destroy_mappings k t l).heap q).kernel_stack = (k.heap q).kernel_stack :=
  (destroy_mappings_heap k t q l).2.2.1

@[simp] theorem destroy_mappings_user_stack (k : Kernel) (t q : Nat) (l : List Nat) :
    ((destroy_mappings k t l).heap q).user_stack = (k.heap q).user_stack :=
  (destroy_mappings_heap k t q l).2.2.2

theorem task_destroy_tasks (k : Kernel) (task : Nat) :
    (task_destroy k task)._tasks = k._tasks.map (fun (l : List Nat) => l.erase task) := by
  unfold task_destroy
  simp only []
  by_cases hs : (k.heap task).state = TaskState.TASK_STATE_NONE <;>
    by_cases hd : (k.heap task).page_directory = k.kpdir <;>
    simp [hs, hd, memory_kpdir, task_set_state]

theorem task_destroy_task_list (k : Kernel) (task : Nat) :
    taskList (task_destroy k task) = (taskList k).erase task := by
  unfold taskList
  rw [task_destroy_tasks]
  cases k._tasks <;> simp

theorem task_destroy_allocated (k : Kernel) (task : Nat) :
    (task_destroy k task).allocated = k.allocated.erase task := by
  unfold task_destroy
  simp only []
  by_cases hs : (k.heap task).state = TaskState.TASK_STATE_NONE <;>
    by_cases hd : (k.heap task).page_directory = k.kpdir <;>
    simp [hs, hd, memory_kpdir, task_set_state]

theorem task_destroy_kpdir (k : Kernel) (task : Nat) :
    (task_destroy k task).kpdir = k.kpdir := by
  unfold task_destroy
  simp only []
  by_cases hs : (k.heap task).state = TaskState.TASK_STATE_NONE <;>
    by_cases hd : (k.heap task).page_directory = k.kpdir <;>
    simp [hs, hd, memory_kpdir, task_set_state]

theorem task_destroy_calls_eq (k : Kernel) (task : Nat) :
    (task_destroy k task).calls = k.calls ++ task_destroy_calls k task := by
  unfold task_destroy task_destroy_calls
  simp only []
  by_cases hs : (k.heap task).state = TaskState.TASK_STATE_NONE <;>
    by_cases hd : (k.heap task).page_directory = k.kpdir <;>
    simp [hs, hd, memory_kpdir, destroy_mappings_calls, task_set_state]

/-! ## Sequences of operations -/

theorem task_create_fresh (env : Env) (hfresh : FreshAllocator env) (k : Kernel) (parent : Nat)
    (name : String) (user : Bool) :
    (task_create env k parent name user).2 ∉ k.allocated ∧
      (task_create env k parent name user).2 ≠ 0 := by
  by_cases ht : k._tasks = none
  · have h := hfresh ({ k.log Call.list_create with _tasks := some [] } : Kernel).view
    simpa [task_create, ht] using h
  · have h := hfresh k.view
    simpa [task_create, ht] using h

theorem Quiet.refl (k : Kernel) : Quiet k k :=
  ⟨rfl, rfl, rfl, [], by simp, by simp⟩

theorem Quiet.trans {a b c : Kernel} (h1 : Quiet a b) (h2 : Quiet b c) : Quiet a c := by
  obtain ⟨t1, a1, d1, l1, c1, n1⟩ := h1
  obtain ⟨t2, a2, d2, l2, c2, n2⟩ := h2
  refine ⟨t2.trans t1, a2.trans a1, d2.trans d1, l1 ++ l2, ?_, ?_⟩
  · rw [c2, c1, List.append_assoc]
  · intro d h
    rcases List.mem_append.mp h with h | h
    · exact n1 d h
    · exact n2 d h

theorem Quiet.setTask (k : Kernel) (p : Nat) (f : Task → Task) : Quiet k (k.setTask p f) :=
  ⟨rfl, rfl, rfl, [], by simp, by simp⟩

theorem Quiet.log (k : Kernel) (c : Call) (hc : ∀ d, c ≠ Call.memory_pdir_destroy d) :
    Quiet k (k.log c) := by
  refine ⟨rfl, rfl, rfl, [c], rfl, ?_⟩
  intro d h
  simp only [List.mem_singleton] at h
  exact hc d h.symm

theorem Quiet.kept {k k2 : Kernel} (h : Quiet k k2) : KernelDirectoryKept k k2 := by
  obtain ⟨_, _, d, l, c, n⟩ := h
  exact ⟨d, l, c, n _⟩

theorem KernelDirectoryKept.append {a b c : Kernel} (h1 : KernelDirectoryKept a b)
    (h2 : KernelDirectoryKept b c) : KernelDirectoryKept a c := by
  obtain ⟨d1, l1, c1, n1⟩ := h1
  obtain ⟨d2, l2, c2, n2⟩ := h2
  refine ⟨d2.trans d1, l1 ++ l2, ?_, ?_⟩
  · rw [c2, c1, List.append_assoc]
  · intro h
    rcases List.mem_append.mp h with h | h
    · exact n1 h
    · rw [d1] at n2
      exact n2 h

theorem task_kernel_stack_push_quiet (k : Kernel) (task : Nat) (v : StackValue) (n : Nat) :
    Quiet k (task_kernel_stack_push k task v n).1 :=
  (Quiet.setTask _ _ _).trans (Quiet.setTask _ _ _)

theorem task_user_stack_push_quiet (k : Kernel) (task : Nat) (v : StackValue) (n : Nat) :
    Quiet k (task_user_stack_push k task v n).1 :=
  (Quiet.setTask _ _ _).trans (Quiet.setTask _ _ _)

theorem task_switch_pdir_quiet (k : Kernel) (task d : Nat) :
    Quiet k (task_switch_pdir k task d).1 :=
  (Quiet.log k (Call.task_switch_pdir task d) (by intro x; simp)).trans (Quiet.setTask _ _ _)

theorem push_argv_quiet (push : Kernel → Nat → StackValue → Nat → Kernel × Nat)
    (hpush : ∀ k task v n, Quiet k (push k task v n).1) (task : Nat)
    (argv : List String) (k : Kernel) : Quiet k (push_argv push task k argv).1 := by
  induction argv generalizing k with
  | nil => exact Quiet.refl k
  | cons arg rest ih =>
    simp only [push_argv]
    exact (hpush k task (StackValue.bytes arg) (arg.utf8ByteSize + 1)).trans (ih _)

theorem pass_argc_argv_kernel_quiet (env : Env) (k : Kernel) (task : Nat)
    (argv : List String) : Quiet k (pass_argc_argv_kernel env k task argv) := by
  simp only [pass_argc_argv_kernel]
  exact (((push_argv_quiet task_kernel_stack_push task_kernel_stack_push_quiet task
    (argv.take env.PROCESS_ARG_COUNT) k).trans
    (task_kernel_stack_push_quiet _ _ _ _)).trans
    (task_kernel_stack_push_quiet _ _ _ _)).trans (task_kernel_stack_push_quiet _ _ _ _)

theorem pass_argc_argv_user_quiet (env : Env) (k : Kernel) (task : Nat)
    (argv : List String) : Quiet k (pass_argc_argv_user env k task argv) := by
  simp only [pass_argc_argv_user]
  exact (((((task_switch_pdir_quiet k _ _).trans
    (push_argv_quiet task_user_stack_push task_user_stack_push_quiet task
      (argv.take env.PROCESS_ARG_COUNT) _)).trans
    (task_user_stack_push_quiet _ _ _ _)).trans
    (task_user_stack_push_quiet _ _ _ _)).trans
    (task_user_stack_push_quiet _ _ _ _)).trans (task_switch_pdir_quiet _ _ _)

theorem task_set_entry_quiet (k : Kernel) (task entry : Nat) (user : Bool) :
    Quiet k (task_set_entry k task entry user) :=
  (Quiet.setTask _ _ _).trans (Quiet.setTask _ _ _)

theorem task_set_state_quiet (k : Kernel) (task : Nat) (state : TaskState) :
    Quiet k (task_set_state k task state) :=
  (Quiet.log k _ (by intro x; simp)).trans (Quiet.setTask _ _ _)

theorem task_go_quiet (k : Kernel) (task : Nat) : Quiet k (task_go k task) := by
  unfold task_go
  simp only []
  refine Quiet.trans ?_ (((Quiet.log _ Call.atomic_begin (by intro x; simp)).trans
    (task_set_state_quiet _ _ _)).trans (Quiet.log _ Call.atomic_end (by intro x; simp)))
  split
  · exact task_kernel_stack_push_quiet _ _ _ _
  · exact task_kernel_stack_push_quiet _ _ _ _

theorem task_cancel_quiet (k : Kernel) (task : Nat) (exit_value : Int) (r : Kernel × Result)
    (h : task_cancel k task exit_value = some r) : Quiet k r.1 := by
  unfold task_cancel at h
  by_cases h0 : task = 0
  · simp [h0] at h
  · simp only [h0, if_false, Option.some.injEq] at h
    subst h
    exact (((Quiet.log k Call.atomic_begin (by intro x; simp)).trans
      (Quiet.setTask _ _ _)).trans (task_set_state_quiet _ _ _)).trans
      (Quiet.log _ Call.atomic_end (by intro x; simp))

theorem task_spawn_quiet (env : Env) (k : Kernel) (parent : Nat) (name : String)
    (entry arg : Nat) (user : Bool) :
    Quiet (task_create env k parent name user).1 (task_spawn env k parent name entry arg user).1 := by
  simp only [task_spawn]
  exact (task_set_entry_quiet _ _ _ _).trans (task_kernel_stack_push_quiet _ _ _ _)

theorem task_spawn_with_argv_quiet (env : Env) (k : Kernel) (parent : Nat) (name : String)
    (entry : Nat) (argv : List String) (user : Bool) :
    Quiet (task_create env (k.log Call.atomic_begin) parent name user).1
      (task_spawn_with_argv env k parent name entry argv user).1 := by
  simp only [task_spawn_with_argv]
  refine Quiet.trans ?_ (Quiet.log _ Call.atomic_end (by intro x; simp))
  refine Quiet.trans (task_set_entry_quiet _
    (task_create env (k.log Call.atomic_begin) parent name user).2 entry true) ?_
  split
  · exact pass_argc_argv_user_quiet _ _ _ _
  · exact pass_argc_argv_kernel_quiet _ _ _ _

theorem task_create_kept (env : Env) (k : Kernel) (parent : Nat) (name : String)
    (user : Bool) : KernelDirectoryKept k (task_create env k parent name user).1 := by
  refine ⟨task_create_kpdir env k parent name user, _,
    task_create_calls_eq env k parent name user, ?_⟩
  unfold task_create_calls
  cases user <;> by_cases ht : k._tasks = none <;> by_cases hp : parent = 0 <;>
    simp [ht, hp]

theorem task_destroy_kept (k : Kernel) (task : Nat) :
    KernelDirectoryKept k (task_destroy k task) := by
  refine ⟨task_destroy_kpdir k task, _, task_destroy_calls_eq k task, ?_⟩
  unfold task_destroy_calls
  by_cases hs : (k.heap task).state = TaskState.TASK_STATE_NONE <;>
    by_cases hd : (k.heap task).page_directory = k.kpdir <;>
    simp [hs, hd] <;> exact fun h => hd h.symm

/-- Every operation leaves `memory_kpdir()` as it is and makes no call of
`memory_pdir_destroy` on it. -/
theorem Op.run_calls (env : Env) (k : Kernel) (op : Op) :
    KernelDirectoryKept k (op.run env k) := by
  cases op with
  | create parent name user => exact task_create_kept env k parent name user
  | spawn parent name entry arg user =>
    exact (task_create_kept env k parent name user).append (task_spawn_quiet _ _ _ _ _ _ _).kept
  | spawn_with_argv parent name entry argv user =>
    exact ((Quiet.log k Call.atomic_begin (by intro x; simp)).kept.append
      (task_create_kept env _ parent name user)).append
      (task_spawn_with_argv_quiet _ _ _ _ _ _ _).kept
  | set_state task state => exact (task_set_state_quiet k task state).kept
  | go task => exact (task_go_quiet k task).kept
  | cancel task exit_value =>
    simp only [Op.run]
    cases h : task_cancel k task exit_value with
    | none => exact (Quiet.refl k).kept
    | some r => exact (task_cancel_quiet k task exit_value r h).kept
  | destroy task => exact task_destroy_kept k task

theorem runOps_calls (env : Env) (ops : List Op) (k0 k : Kernel)
    (hrun : runOps env k0 ops = some k) : KernelDirectoryKept k0 k := by
  induction ops generalizing k0 with
  | nil =>
    simp only [runOps, Option.some.injEq] at hrun
    subst hrun
    exact (Quiet.refl _).kept
  | cons op rest ih =>
    simp only [runOps] at hrun
    by_cases hv : op.valid k0 = true
    · simp only [hv, if_true] at hrun
      exact (Op.run_calls env k0 op).append (ih (op.run env k0) hrun)
    · simp [hv] at hrun

theorem atBoot_inv (k : Kernel) (h : atBoot k = true) : TasksInv k := by
  simp only [atBoot, Bool.and_eq_true, Option.isNone_iff_eq_none, List.isEmpty_iff] at h
  obtain ⟨h1, h2⟩ := h
  simp [TasksInv, taskList, h1, h2]

theorem Quiet.inv {k k2 : Kernel} (h : Quiet k k2) (hinv : TasksInv k) : TasksInv k2 := by
  obtain ⟨h1, h2, _, _⟩ := h
  simp only [TasksInv, taskList, h1, h2]
  exact hinv

theorem task_create_inv (env : Env) (hfresh : FreshAllocator env) (k : Kernel) (parent : Nat)
    (name : String) (user : Bool) (hinv : TasksInv k) :
    TasksInv (task_create env k parent name user).1 := by
  obtain ⟨hiff, hnd, hand, hz⟩ := hinv
  obtain ⟨hf, hnz⟩ := task_create_fresh env hfresh k parent name user
  have hfl : (task_create env k parent name user).2 ∉ taskList k := fun h => hf ((hiff _).mpr h)
  simp only [TasksInv, task_create_allocated, task_create_task_list]
  refine ⟨?_, ?_, ?_, ?_⟩
  · intro p
    simp only [List.mem_cons, List.mem_append, List.mem_singleton, hiff p]
    tauto
  · rw [List.nodup_append]
    refine ⟨hnd, List.nodup_singleton _, ?_⟩
    intro a ha hb
    simp only [List.mem_singleton] at hb
    exact hfl (hb ▸ ha)
  · exact List.nodup_cons.mpr ⟨hf, hand⟩
  · simp only [List.mem_cons, not_or]
    exact ⟨fun h => hnz h.symm, hz⟩

/-- Every operation keeps the live tasks and the items of the global list the
same, from any state in which they are. -/
theorem Op.run_inv (env : Env) (hfresh : FreshAllocator env) (k : Kernel) (op : Op)
    (hinv : TasksInv k) : TasksInv (op.run env k) := by
  cases op with
  | create parent name user => exact task_create_inv env hfresh k parent name user hinv
  | spawn parent name entry arg user =>
    exact (task_spawn_quiet env k parent name entry arg user).inv
      (task_create_inv env hfresh k parent name user hinv)
  | spawn_with_argv parent name entry argv user =>
    exact (task_spawn_with_argv_quiet env k parent name entry argv user).inv
      (task_create_inv env hfresh _ parent name user
        ((Quiet.log k Call.atomic_begin (by intro x; simp)).inv hinv))
  | set_state task state => exact (task_set_state_quiet k task state).inv hinv
  | go task => exact (task_go_quiet k task).inv hinv
  | cancel task exit_value =>
    simp only [Op.run]
    cases h : task_cancel k task exit_value with
    | none => exact hinv
    | some r => exact (task_cancel_quiet k task exit_value r h).inv hinv
  | destroy task =>
    obtain ⟨hiff, hnd, hand, hz⟩ := hinv
    simp only [Op.run, TasksInv, task_destroy_allocated, task_destroy_task_list]
    refine ⟨?_, hnd.erase _, hand.erase _, ?_⟩
    · intro p
      rw [hand.mem_erase_iff, hnd.mem_erase_iff, hiff p]
    · intro h
      exact hz (List.mem_of_mem_erase h)

theorem runOps_inv (env : Env) (hfresh : FreshAllocator env) (ops : List Op) (k0 k : Kernel)
    (hinv : TasksInv k0) (hrun : runOps env k0 ops = some k) : TasksInv k := by
  induction ops generalizing k0 with
  | nil =>
    simp only [runOps, Option.some.injEq] at hrun
    subst hrun
    exact hinv
  | cons op rest ih =>
    simp only [runOps] at hrun
    by_cases hv : op.valid k0 = true
    · simp only [hv, if_true] at hrun
      exact ih (op.run env k0) (Op.run_inv env hfresh k0 op hinv) hrun
    · simp [hv] at hrun

/-! ## The global task list -/

theorem mem_le_sum (l : List Nat) (x : Nat) (h : x ∈ l) : x ≤ l.sum := by
  induction l with
  | nil => simp at h
  | cons a rest ih =>
    simp only [List.mem_cons] at h
    simp only [List.sum_cons]
    rcases h with h | h
    · omega
    · have := ih h
      omega

theorem sampleEnv_fresh : FreshAllocator sampleEnv := by
  intro k
  constructor
  · intro h
    have := mem_le_sum k.allocated _ h
    simp only [sampleEnv] at this
    omega
  · simp [sampleEnv]

theorem task_count_eq (k : Kernel) : (task_count k).2 = (taskList k).length := by
  unfold task_count taskList
  simp only [log_tasks]
  cases k._tasks <;> rfl

/-- Claim C7 as stated fails: the task `task_create` returns for the first
kernel task at boot has state `None` and is an item of the global list. -/
theorem task_create_lists_none_state_task :
    ((task_create sampleEnv bootKernel 0 "init" false).1.heap
        (task_create sampleEnv bootKernel 0 "init" false).2).state
      = TaskState.TASK_STATE_NONE ∧
    (task_create sampleEnv bootKernel 0 "init" false).2
      ∈ taskList (task_create sampleEnv bootKernel 0 "init" false).1 := by
  refine ⟨task_create_state _ _ _ _ _, ?_⟩
  rw [task_create_task_list]
  simp

theorem blockedKernel_inv : TasksInv blockedKernel := by
  simp [TasksInv, taskList, blockedKernel, bootKernel]

/-- Claim C7, amended.  The live tasks and the items of the global list are
the same at boot, and from any state in which they are the same (whatever the
states, entry points, blockers and mappings of the tasks) they still are after
any sequence of `task_create`, `task_spawn`, `task_spawn_with_argv`,
`task_set_state`, `task_go`, `task_cancel`, `task_destroy`: every task created
and not yet destroyed is in the list whatever its state (so one that is
`Running`, `Ready` or `Blocked` is), and every item of the list is a live task.
The task a further `task_create` returns has state `None` and is in the list; a
task leaves the list when `task_destroy` is called on it. -/
theorem task_list_invariant (env : Env) (hfresh : FreshAllocator env) (k0 : Kernel)
    (ops : List Op) (k : Kernel) (hinv : TasksInv k0)
    (hrun : runOps env k0 ops = some k) :
    (∀ kb, atBoot kb = true → TasksInv kb) ∧
    (∀ p ∈ k.allocated, p ∈ taskList k) ∧
    (∀ p ∈ k.allocated,
      ((k.heap p).state = TaskState.TASK_STATE_RUNNING ∨
        (k.heap p).state = TaskState.TASK_STATE_READY ∨
        (k.heap p).state = TaskState.TASK_STATE_BLOCKED) → p ∈ taskList k) ∧
    (∀ p ∈ taskList k, p ∈ k.allocated) ∧
    (taskList k).Nodup ∧
    (∀ parent name user,
      ((task_create env k parent name user).1.heap
          (task_create env k parent name user).2).state = TaskState.TASK_STATE_NONE ∧
      (task_create env k parent name user).2 ∈ taskList (task_create env k parent name user).1) ∧
    (∀ task ∈ taskList k, task ∉ taskList (task_destroy k task)) := by
  obtain ⟨hiff, hnd, _, _⟩ := runOps_inv env hfresh ops k0 k hinv hrun
  refine ⟨atBoot_inv, fun p hp => (hiff p).mp hp, fun p hp _ => (hiff p).mp hp,
    fun p hp => (hiff p).mpr hp, hnd, ?_, ?_⟩
  · intro parent name user
    refine ⟨task_create_state _ _ _ _ _, ?_⟩
    rw [task_create_task_list]
    simp
  · intro task _
    rw [task_destroy_task_list]
    exact fun h => (hnd.mem_erase_iff.mp h).1 rfl

theorem task_list_invariant_witness :
    TasksInv blockedKernel ∧
      runOps sampleEnv blockedKernel
          [Op.set_state 0x100 TaskState.TASK_STATE_READY,
           Op.spawn 0x100 "child" 0x40002000 0 true]
        = some oneTaskKernel ∧
      (oneTaskKernel.heap 0x100).state = TaskState.TASK_STATE_READY ∧
      0x100 ∈ taskList oneTaskKernel :=
  ⟨blockedKernel_inv, rfl, by decide,
    (task_list_invariant sampleEnv sampleEnv_fresh blockedKernel
      [Op.set_state 0x100 TaskState.TASK_STATE_READY, Op.spawn 0x100 "child" 0x40002000 0 true]
      oneTaskKernel blockedKernel_inv rfl).2.2.1 0x100 (by decide)
      (Or.inr (Or.inl (by decide)))⟩

/-! ## The user stack mapping of `task_create` -/

theorem task_create_mapped (env : Env) (k : Kernel) (parent : Nat) (name : String)
    (user : Bool) (e : Nat × Nat) :
    (e ∈ k.mapped → e ∈ (task_create env k parent name user).1.mapped) ∧
    (e ∈ (task_create env k parent name user).1.mapped →
      e ∈ k.mapped ∨
        (e.1 = ((task_create env k parent name user).1.heap
            (task_create env k parent name user).2).page_directory ∧
          (e.2 ∈ pagesOf ((task_create env k parent name user).1.heap
              (task_create env k parent name user).2).kernel_stack PROCESS_STACK_SIZE ∨
            e.2 = 0xff000))) ∧
    (((task_create env k parent name user).1.heap
        (task_create env k parent name user).2).page_directory, 0xff000)
      ∈ (task_create env k parent name user).1.mapped := by
  have hpd := create_finish_page_directory env (create_prepared env k parent name user).1
    (create_prepared env k parent name user).2
  have hm := create_finish_mapped env (create_prepared env k parent name user).1
    (create_prepared env k parent name user).2 e
  have hq := (create_finish_mapped env (create_prepared env k parent name user).1
    (create_prepared env k parent name user).2
    (((create_prepared env k parent name user).1.heap
      (create_prepared env k parent name user).2).page_directory, 0xff000)).2.2
  have h2 : (create_finish env (create_prepared env k parent name user).1
      (create_prepared env k parent name user).2).2 = (create_prepared env k parent name user).2 :=
    rfl
  rw [task_create_eq, h2, hpd]
  rw [create_prepared_mapped] at hm
  exact ⟨hm.1, hm.2.1, hq⟩

theorem task_create_user_pd (env : Env) (k : Kernel) (parent : Nat) (name : String) :
    ((task_create env k parent name true).1.heap
      (task_create env k parent name true).2).page_directory
      = (memory_pdir_create env (create_named env k name).1).2 := by
  unfold task_create create_named
  simp only []
  by_cases ht : k._tasks = none <;> by_cases hp : parent = 0 <;>
    simp [ht, hp, memory_pdir_create] <;> split <;> simp [Kernel.view]

theorem create_named_statics (env : Env) (k : Kernel) (name : String) :
    (create_named env k name).2 = (task_create env k 0 name false).2 ∧
      (create_named env k name).1.mapped = k.mapped ∧
      (create_named env k name).1.kpdir = k.kpdir ∧
      ((create_named env k name).1.heap (create_named env k name).2).state
        = TaskState.TASK_STATE_NONE := by
  unfold task_create create_named
  simp only []
  by_cases ht : k._tasks = none <;> simp [ht]

theorem task_create_calls_since (env : Env) (k : Kernel) (parent : Nat) (name : String)
    (user : Bool) :
    callsSince k (task_create env k parent name user).1
      = task_create_calls k parent (task_create env k parent name user).2
          ((task_create env k parent name user).1.heap
            (task_create env k parent name user).2).page_directory user :=
  callsSince_of_calls_eq _ _ _ (task_create_calls_eq env k parent name user)

/-- Claim C8 as stated fails: at boot, for a kernel task (`user = false`),
`task_create` calls `memory_map` on `[0xff000000, 0xff000000 + 4096)` in the
kernel directory, and the page, absent before, is present in the kernel
directory afterwards. -/
theorem task_create_kernel_task_maps_user_stack :
    (bootKernel.kpdir, 0xff000) ∉ bootKernel.mapped ∧
    ((task_create sampleEnv bootKernel 0 "init" false).1.heap
        (task_create sampleEnv bootKernel 0 "init" false).2).page_directory
      = memory_kpdir bootKernel ∧
    Call.memory_map (memory_kpdir bootKernel) 0xff000000 4096 MemoryFlags.MEMORY_USER
      ∈ callsSince bootKernel (task_create sampleEnv bootKernel 0 "init" false).1 ∧
    (memory_kpdir bootKernel, 0xff000)
      ∈ (task_create sampleEnv bootKernel 0 "init" false).1.mapped := by
  have hpd := task_create_kernel_pd sampleEnv bootKernel 0 "init"
  refine ⟨by decide, hpd, ?_, ?_⟩
  · rw [task_create_calls_since, hpd]
    simp [task_create_calls, PROCESS_STACK_SIZE, memory_kpdir]
  · have := (task_create_mapped sampleEnv bootKernel 0 "init" false (0, 0)).2.2
    rw [hpd] at this
    exact this

/-- Claim C8, amended.  For every call `task_create(parent, name, user)`,
whether `user` is true or false, `memory_map` is called exactly once, on the
range `[0xff000000, 0xff000000 + 4096)` of the page directory of the new task
with `MEMORY_USER`, and the page of that range is present in that directory
afterwards.  `memory_pdir_create` is called exactly when `user` is true, and
then the directory of the new task is the one that call returns (made in the
state `create_named`, right after the state of the task is set to `None`); for
a kernel task the directory is the kernel directory, of which `task_create`
leaves every mapping outside the new kernel stack and outside
`[0xff000000, 0xff000000 + 4096)` as it was. -/
theorem task_create_user_stack (env : Env) (k : Kernel) (parent : Nat) (name : String)
    (user : Bool) :
    (callsSince k (task_create env k parent name user).1).count
        (Call.memory_map
          ((task_create env k parent name user).1.heap
            (task_create env k parent name user).2).page_directory
          0xff000000 4096 MemoryFlags.MEMORY_USER) = 1 ∧
    (∀ d b n fl, Call.memory_map d b n fl ∈ callsSince k (task_create env k parent name user).1 →
      d = ((task_create env k parent name user).1.heap
            (task_create env k parent name user).2).page_directory ∧
        b = 0xff000000 ∧ n = 4096 ∧ fl = MemoryFlags.MEMORY_USER) ∧
    (((task_create env k parent name user).1.heap
        (task_create env k parent name user).2).page_directory, 0xff000000 / 4096)
      ∈ (task_create env k parent name user).1.mapped ∧
    (Call.memory_pdir_create ∈ callsSince k (task_create env k parent name user).1
      ↔ user = true) ∧
    (callsSince k (task_create env k parent name true).1).count Call.memory_pdir_create = 1 ∧
    ((task_create env k parent name true).1.heap
        (task_create env k parent name true).2).page_directory
      = (memory_pdir_create env (create_named env k name).1).2 ∧
    ((create_named env k name).1.mapped = k.mapped ∧
      (create_named env k name).1.kpdir = k.kpdir ∧
      ((create_named env k name).1.heap (task_create env k parent name true).2).state
        = TaskState.TASK_STATE_NONE) ∧
    ((task_create env k parent name false).1.heap
        (task_create env k parent name false).2).page_directory = memory_kpdir k ∧
    (∀ page,
      page ∉ pagesOf ((task_create env k parent name false).1.heap
          (task_create env k parent name false).2).kernel_stack PROCESS_STACK_SIZE →
      page ∉ pagesOf 0xff000000 4096 →
      ((memory_kpdir k, page) ∈ (task_create env k parent name false).1.mapped
        ↔ (memory_kpdir k, page) ∈ k.mapped)) := by
  refine ⟨?_, ?_, ?_, ?_, ?_, task_create_user_pd env k parent name, ?_,
    task_create_kernel_pd env k parent name, ?_⟩
  · rw [task_create_calls_since]
    unfold task_create_calls
    cases user <;> by_cases ht : k._tasks = none <;> by_cases hp : parent = 0 <;>
      simp [ht, hp, List.count_cons, List.count_append, PROCESS_STACK_SIZE]
  · intro d b n fl
    rw [task_create_calls_since]
    unfold task_create_calls
    cases user <;> by_cases ht : k._tasks = none <;> by_cases hp : parent = 0 <;>
      simp [ht, hp, PROCESS_STACK_SIZE]
  · exact (task_create_mapped env k parent name user (0, 0)).2.2
  · rw [task_create_calls_since]
    unfold task_create_calls
    cases user <;> by_cases ht : k._tasks = none <;> by_cases hp : parent = 0 <;>
      simp [ht, hp]
  · rw [task_create_calls_since]
    unfold task_create_calls
    by_cases ht : k._tasks = none <;> by_cases hp : parent = 0 <;>
      simp [ht, hp, List.count_cons, List.count_append]
  · obtain ⟨h1, h2, h3, h4⟩ := create_named_statics env k name
    have ht : (task_create env k parent name true).2 = (create_named env k name).2 := by
      rw [h1]
      unfold task_create
      rfl
    rw [ht]
    exact ⟨h2, h3, h4⟩
  · intro page hks hus
    have hpd := task_create_kernel_pd env k parent name
    have hm := task_create_mapped env k parent name false (memory_kpdir k, page)
    constructor
    · intro h
      rcases hm.2.1 h with h1 | ⟨_, h2 | h2⟩
      · exact h1
      · exact absurd h2 hks
      · exfalso
        apply hus
        have : pagesOf 0xff000000 4096 = [0xff000] := pagesOf_user_stack
        rw [this]
        simp only [List.mem_singleton]
        exact h2
    · exact hm.1

theorem task_create_user_stack_witness :
    (memory_kpdir bootKernel, 0xff000)
        ∈ (task_create sampleEnv bootKernel 0 "init" false).1.mapped ∧
      ((task_create sampleEnv bootKernel 0 "init" true).1.heap
          (task_create sampleEnv bootKernel 0 "init" true).2).page_directory = 0x3100 := by
  have h := (task_create_user_stack sampleEnv bootKernel 0 "init" false).2.2.1
  rw [task_create_kernel_pd] at h
  exact ⟨h, (task_create_user_stack sampleEnv bootKernel 0 "init" false).2.2.2.2.2.1.trans
    (by decide)⟩

/-! ## What `task_destroy` removes -/

theorem task_destroy_calls_count (k : Kernel) (task d : Nat) :
    (task_destroy_calls k task).count (Call.memory_pdir_destroy d)
      = (if d = (k.heap task).page_directory ∧ (k.heap task).page_directory ≠ k.kpdir
          then 1 else 0) := by
  have hmap : ((k.heap task).memory_mapping.map
      (fun m => Call.task_memory_mapping_destroy task m)).count (Call.memory_pdir_destroy d)
        = 0 := by
    rw [List.count_eq_zero]
    simp
  unfold task_destroy_calls
  simp only [List.count_append, hmap]
  by_cases he : d = (k.heap task).page_directory
  · by_cases hs : (k.heap task).state = TaskState.TASK_STATE_NONE <;>
      by_cases hd : (k.heap task).page_directory = k.kpdir <;>
      simp [hs, hd, he, List.count_cons]
  · have he2 : ¬ (k.heap task).page_directory = d := fun h => he h.symm
    by_cases hs : (k.heap task).state = TaskState.TASK_STATE_NONE <;>
      by_cases hd : (k.heap task).page_directory = k.kpdir <;>
      simp [hs, hd, he, he2, List.count_cons]

/-- Claim C9.  In any state whose global list holds no task twice, for a task
of the list, whatever its state, blocker and mappings: after
`task_destroy(task)` the task is not in the list and `task_count()` is one
less; `memory_pdir_destroy` is called, once, on the directory of the task
exactly when that directory is not the kernel directory, and on no other
directory.  When the state was reached by a sequence of operations of the task
module from a state `k0`, then over the whole sequence, this `task_destroy`
included, `memory_pdir_destroy` is never called on the kernel directory. -/
theorem task_destroy_spec (env : Env) (k0 : Kernel) (ops : List Op) (k : Kernel)
    (hrun : runOps env k0 ops = some k) (hnd : (taskList k).Nodup) (task : Nat)
    (hmem : task ∈ taskList k) :
    task ∉ taskList (task_destroy k task) ∧
    (task_count (task_destroy k task)).2 + 1 = (task_count k).2 ∧
    (∀ d, (callsSince k (task_destroy k task)).count (Call.memory_pdir_destroy d)
      = (if d = (k.heap task).page_directory ∧ (k.heap task).page_directory ≠ memory_kpdir k
          then 1 else 0)) ∧
    memory_kpdir (task_destroy k task) = memory_kpdir k0 ∧
    Call.memory_pdir_destroy (memory_kpdir k0) ∉ callsSince k0 (task_destroy k task) := by
  obtain ⟨hk, l, hl, hnot⟩ := runOps_calls env ops k0 k hrun
  refine ⟨?_, ?_, ?_, ?_, ?_⟩
  · rw [task_destroy_task_list]
    exact fun h => (hnd.mem_erase_iff.mp h).1 rfl
  · rw [task_count_eq, task_count_eq, task_destroy_task_list, List.length_erase_of_mem hmem]
    have : 0 < (taskList k).length := List.length_pos_of_mem hmem
    omega
  · intro d
    rw [callsSince_of_calls_eq _ _ _ (task_destroy_calls_eq k task)]
    exact task_destroy_calls_count k task d
  · exact (task_destroy_kpdir k task).trans hk
  · have hc : (task_destroy k task).calls = k0.calls ++ (l ++ task_destroy_calls k task) := by
      rw [task_destroy_calls_eq, hl, List.append_assoc]
    rw [callsSince_of_calls_eq _ _ _ hc]
    intro h
    rcases List.mem_append.mp h with h | h
    · exact hnot h
    · have hcount := task_destroy_calls_count k task (memory_kpdir k0)
      have hpos : 0 < (task_destroy_calls k task).count (Call.memory_pdir_destroy (memory_kpdir k0)) :=
        List.count_pos_iff.mpr h
      rw [hcount] at hpos
      by_cases hc2 : memory_kpdir k0 = (k.heap task).page_directory ∧
          (k.heap task).page_directory ≠ k.kpdir
      · exact hc2.2 (hc2.1.symm.trans hk.symm)
      · rw [if_neg hc2] at hpos
        exact absurd hpos (by decide)

theorem twoTaskKernel_nodup : (taskList twoTaskKernel).Nodup :=
  (runOps_inv sampleEnv sampleEnv_fresh
    [Op.create 0 "worker" false,
     Op.spawn_with_argv 0x100 "child" 0x40002000 ["child", "-v"] true]
    blockedKernel twoTaskKernel blockedKernel_inv rfl).2.1

theorem task_destroy_spec_witness :
    runOps sampleEnv blockedKernel
        [Op.create 0 "worker" false,
         Op.spawn_with_argv 0x100 "child" 0x40002000 ["child", "-v"] true]
      = some twoTaskKernel ∧
      (taskList twoTaskKernel).Nodup ∧
      0x100 ∈ taskList twoTaskKernel ∧
      0x100 ∉ taskList (task_destroy twoTaskKernel 0x100) ∧
      (callsSince twoTaskKernel (task_destroy twoTaskKernel 0x100)).count
        (Call.memory_pdir_destroy 0x3000) = 1 :=
  ⟨rfl,
    twoTaskKernel_nodup,
    by decide,
    (task_destroy_spec sampleEnv blockedKernel
      [Op.create 0 "worker" false,
       Op.spawn_with_argv 0x100 "child" 0x40002000 ["child", "-v"] true] twoTaskKernel rfl
      twoTaskKernel_nodup 0x100 (by decide)).1,
    ((task_destroy_spec sampleEnv blockedKernel
      [Op.create 0 "worker" false,
       Op.spawn_with_argv 0x100 "child" 0x40002000 ["child", "-v"] true] twoTaskKernel rfl
      twoTaskKernel_nodup 0x100 (by decide)).2.2.1 0x3000).trans (by decide)⟩

end Skift
